import Mathlib

/-!
# The window and application runtime of RTL

A shallow embedding of `rtl/sys/impl/application.hpp` (class `rtl::impl::win::window`,
the window procedure `wnd_proc`, `window::update` and `application::run`) together with
the enumeration of `rtl/sys/keyboard.hpp`.

Conventions of the embedding.

* The process-wide `g_window`, the part of Win32 it talks to and the state of the user
  callbacks form one record `world`; every member function is a function on `world`.
* Calls that leave the program (Win32 calls with an effect, the two user callbacks) are
  appended to `platform.log`, so that their number and order can be stated.
* The preprocessor switches `RTL_ENABLE_APP_*` are the fields of `config`.
* `RTL_ASSERT` and `RTL_WINAPI_CHECK` (header `rtl/sys/debug.hpp`) are diagnostics; every Win32
  call is taken to succeed.  The on-screen text (`RTL_ENABLE_APP_OSD`) and the contents of the
  pixel memory are not part of the model.
* Dereferencing the back-reference `that` while it is null has no defined result: `wnd_proc`
  returns `none` there.
-/

namespace rtl

/-! ## rtl/sys/keyboard.hpp -/

namespace keyboard

/-- The enumeration `keyboard::keys`. -/
inductive keys where
  | any
  | enter
  | esc
  | space
  | count
  deriving DecidableEq, Repr

/-- The value of an enumerator, as produced by `static_cast<int>`. -/
def keys.toNat : keys → Nat
  | .any => 0
  | .enter => 1
  | .esc => 2
  | .space => 3
  | .count => 4

end keyboard

/-- The loop bound `static_cast<size_t>( keyboard::keys::count )`. -/
def keys_count : Nat := keyboard.keys.count.toNat

/-! ## Win32 constants and records used by the window -/

def WM_SIZE : Nat := 0x0005
def WM_PAINT : Nat := 0x000F
def WM_CLOSE : Nat := 0x0010
def WM_QUIT : Nat := 0x0012
def WM_SETCURSOR : Nat := 0x0020
def WM_GETMINMAXINFO : Nat := 0x0024
def WM_KEYDOWN : Nat := 0x0100
def WM_KEYUP : Nat := 0x0101
def WM_SIZING : Nat := 0x0214
def WM_EXITSIZEMOVE : Nat := 0x0232
def SIZE_MINIMIZED : Nat := 1
def HTCLIENT : Nat := 1
def WS_POPUP : Nat := 0x80000000
def WS_OVERLAPPEDWINDOW : Nat := 0x00CF0000

/-- The low-order word of a message parameter. -/
def LOWORD (l : Nat) : Nat := l % 0x10000

structure RECT where
  left : Int
  top : Int
  right : Int
  bottom : Int
  deriving DecidableEq, Repr

structure MSG where
  message : Nat
  wParam : Nat
  lParam : Nat
  deriving DecidableEq, Repr

/-- The geometry part of `WINDOWPLACEMENT`. -/
structure WINDOWPLACEMENT where
  rcNormalPosition : RECT
  deriving DecidableEq, Repr

/-! ## rtl/sys/application.hpp: the records handed to the user callback

The header itself is not among the sources; the records below hold exactly the members
that `application.hpp` of the implementation reads and writes.  The two key arrays are
indexed by `static_cast<int>` of a `keyboard::keys` value; they are maps from the index. -/

namespace application

structure input_keys where
  state : Nat → Bool
  pressed : Nat → Bool

structure input_clock where
  thirds : Int

structure input where
  keys : input_keys
  clock : input_clock

structure output_screen where
  width : Int
  height : Int
  pitch : Nat

structure output where
  screen : output_screen

/-- The enumeration `application::action`. -/
inductive action where
  | none
  | close
  | toggle_fullscreen
  deriving DecidableEq, Repr

end application

open application

/-- The compile-time configuration: the `RTL_ENABLE_APP_*` switches, the width of `size_t`
on the target and the constant `application::input::clock::measure`. -/
structure config where
  RTL_ENABLE_APP_KEYS : Bool
  RTL_ENABLE_APP_RESIZE : Bool
  RTL_ENABLE_APP_SCREEN : Bool
  RTL_ENABLE_APP_CLOCK : Bool
  RTL_ENABLE_APP_FULLSCREEN : Bool
  RTL_ENABLE_APP_CURSOR : Bool
  size_bits : Nat
  measure : Int

/-- Calls that leave the program, in the order they are made. -/
inductive effect where
  | PostQuitMessage
  | InvalidateRect
  | DeleteObject
  | CreateDIBSection (biWidth biHeight : Int)
  | on_reset
  | on_update (i : input) (o : output) (a : action)
  | DefWindowProcW (uMsg wParam lParam : Nat)
  | BeginPaint
  | BitBlt (x y cx cy : Int)
  | EndPaint
  | SetCursor (arrow : Bool)
  | MinTrackSize (x y : Int)
  | SetWindowLongW (style : Nat)
  | SetWindowPos (x y cx cy : Int)
  | SetWindowPlacement (p : WINDOWPLACEMENT)
  | DeleteDC
  | DestroyWindow

/-- The part of Win32 that the window reads and writes. -/
structure platform where
  /-- Whether `GWL_USERDATA` of the window holds the address of `g_window`. -/
  userdata : Bool
  /-- The value of `GetTickCount()`, a `DWORD`. -/
  tick : Nat
  /-- The rectangle `GetClientRect` reports. -/
  client : RECT
  /-- The rectangle `GetWindowRect( GetDesktopWindow() )` reports. -/
  desktop : RECT
  /-- The geometry of the window: read by `GetWindowPlacement`, written by
  `SetWindowPlacement` and `SetWindowPos`. -/
  placement : WINDOWPLACEMENT
  /-- The window style `GWL_STYLE`. -/
  style : Nat
  /-- The posted messages not yet retrieved. -/
  queue : List MSG
  /-- Set by `PostQuitMessage`: a `WM_QUIT` is due once the queue is empty. -/
  quit : Bool
  /-- The calls made so far. -/
  log : List effect

/-- The data members of `class window`. -/
structure window where
  m_device_context_handle : Bool
  m_client_rect : RECT
  m_input : input
  m_output : output
  m_sizing : Bool
  m_sized : Bool
  m_fullscreen : Bool
  m_placement : WINDOWPLACEMENT
  biWidth : Int
  biHeight : Int
  m_bitmap_handle : Bool

/-- The whole state: `g_window`, the platform and the state owned by the user callbacks. -/
structure world (σ : Type) where
  g_window : window
  sys : platform
  user : σ

variable {σ : Type}

/-- Record one call. -/
def world.emit (w : world σ) (e : effect) : world σ :=
  { w with sys := { w.sys with log := w.sys.log ++ [e] } }

/-- Win32 `PostQuitMessage( 0 )`. -/
def world.PostQuitMessage (w : world σ) : world σ :=
  { w with sys := { w.sys with quit := true, log := w.sys.log ++ [effect.PostQuitMessage] } }

/-- Assignment through the non-null back-reference `that`. -/
def world.modify (w : world σ) (f : window → window) : world σ :=
  { w with g_window := f w.g_window }

/-- The statement form: if ( that ) that->member = value. -/
def world.guarded (w : world σ) (f : window → window) : world σ :=
  if w.sys.userdata = true then w.modify f else w

/-! ## Members of `window` -/

/-- The member `window::width`. -/
def window.width (g : window) : Int := g.m_client_rect.right - g.m_client_rect.left

/-- The member `window::height`. -/
def window.height (g : window) : Int := g.m_client_rect.bottom - g.m_client_rect.top

/-- The member `window::fullscreen`. -/
def window.fullscreen (cfg : config) (g : window) : Bool :=
  if cfg.RTL_ENABLE_APP_RESIZE = true then g.m_fullscreen else cfg.RTL_ENABLE_APP_FULLSCREEN

/-- Conversion of an `int` to `size_t`. -/
def to_size_t (bits : Nat) (x : Int) : Nat := (x % (2 : Int) ^ bits).toNat

/-- The row stride computed in `window::resize`, in `size_t` arithmetic:
`( ( ( sizeof_rgb * width ) + align - 1 ) / align ) * align` with `sizeof_rgb = 3` and
`align = sizeof( LONG ) = 4`. -/
def pitch_of (bits : Nat) (width : Int) : Nat :=
  let sizeof_rgb := 3
  let align := 4
  let m := 2 ^ bits
  let a := (sizeof_rgb * to_size_t bits width) % m
  let b := (a + align) % m
  let c := (b + m - 1) % m
  ((c / align) * align) % m

/-- The member `window::resize`. -/
def window.resize (cfg : config) (w : world σ) : world σ :=
  let w := w.modify fun g => { g with m_client_rect := w.sys.client }
  let width := w.g_window.width
  let height := w.g_window.height
  if cfg.RTL_ENABLE_APP_SCREEN = true then
    let w := w.modify fun g => { g with biWidth := width, biHeight := -height }
    let w := (w.emit (effect.CreateDIBSection width (-height))).modify
      fun g => { g with m_bitmap_handle := true }
    w.modify fun g => { g with m_output := { screen :=
      { width := width, height := height, pitch := pitch_of cfg.size_bits width } } }
  else
    w

/-- The member `window::destroy_resizable_components`. -/
def window.destroy_resizable_components (cfg : config) (w : world σ) : world σ :=
  if cfg.RTL_ENABLE_APP_SCREEN = true ∧ w.g_window.m_bitmap_handle = true then
    (w.emit effect.DeleteObject).modify fun g => { g with m_bitmap_handle := false }
  else
    w

/-- The member `window::destroy`. -/
def window.destroy (cfg : config) (w : world σ) : world σ :=
  ((window.destroy_resizable_components cfg w).emit effect.DeleteDC).emit effect.DestroyWindow

/-- The member `window::invalidate`. -/
def window.invalidate (w : world σ) : world σ :=
  w.emit effect.InvalidateRect

/-- The member `window::set_fullscreen_mode` (present when `RTL_ENABLE_APP_RESIZE`). -/
def window.set_fullscreen_mode (fullscreen : Bool) (w : world σ) : world σ :=
  let w := w.modify fun g => { g with m_fullscreen := fullscreen }
  if w.g_window.m_fullscreen = true then
    let w := w.modify fun g => { g with m_placement := w.sys.placement }
    let w := { w with sys := { w.sys with style := WS_POPUP } }.emit (effect.SetWindowLongW WS_POPUP)
    let rect := w.sys.desktop
    let cx := rect.right - rect.left
    let cy := rect.bottom - rect.top
    let w := { w with sys := { w.sys with placement := { rcNormalPosition := ⟨0, 0, cx, cy⟩ } } }
    w.emit (effect.SetWindowPos 0 0 cx cy)
  else
    let w := { w with sys := { w.sys with style := WS_OVERLAPPEDWINDOW } }.emit
      (effect.SetWindowLongW WS_OVERLAPPEDWINDOW)
    let w := { w with sys := { w.sys with placement := w.g_window.m_placement } }
    w.emit (effect.SetWindowPlacement w.g_window.m_placement)

/-- Store into `m_input.keys.state[key]`. -/
def window.set_state (g : window) (key : Nat) (v : Bool) : window :=
  { g with m_input := { g.m_input with keys :=
    { g.m_input.keys with state := Function.update g.m_input.keys.state key v } } }

/-- Store into `m_input.keys.pressed[key]`. -/
def window.set_pressed (g : window) (key : Nat) (v : Bool) : window :=
  { g with m_input := { g.m_input with keys :=
    { g.m_input.keys with pressed := Function.update g.m_input.keys.pressed key v } } }

/-- Conversion to `int32_t`, and the wrap-around of 32-bit signed arithmetic.  The constant
stands on the left of the sum so that the expression stays as it is for a variable `x`. -/
def to_int32 (x : Int) : Int := (2 ^ 31 + x) % 2 ^ 32 - 2 ^ 31

/-- The clock sample of `window::update`:
`static_cast<int32_t>( ::GetTickCount() ) * application::input::clock::measure / 1000`. -/
def clock_thirds (measure : Int) (tick : Nat) : Int :=
  Int.tdiv (to_int32 (to_int32 (tick : Int) * measure)) 1000

/-! ## The window procedure -/

/-- The static member `window::wnd_proc`.  The back-reference `that` read from `GWL_USERDATA`
is `g_window` when `userdata` is set and null otherwise.  The result is `none` where a null
`that` is dereferenced.  The value returned to the platform is not kept; a `break` out of the
switch shows as the call of `DefWindowProcW`. -/
def window.wnd_proc (cfg : config) (virtual_key_to_enum : Nat → keyboard.keys)
    (w : world σ) (uMsg wParam lParam : Nat) : Option (world σ) :=
  let DefWindowProcW := fun (w : world σ) => w.emit (effect.DefWindowProcW uMsg wParam lParam)
  if uMsg = WM_CLOSE then
    some w.PostQuitMessage
  else if cfg.RTL_ENABLE_APP_KEYS = true ∧ uMsg = WM_KEYDOWN then
    let key := (virtual_key_to_enum wParam).toNat
    if w.sys.userdata = true then
      let w := if w.g_window.m_input.keys.state key = false
        then w.modify fun that => that.set_pressed key true
        else w
      some (w.modify fun that => that.set_state key true)
    else
      none
  else if cfg.RTL_ENABLE_APP_KEYS = true ∧ uMsg = WM_KEYUP then
    let key := (virtual_key_to_enum wParam).toNat
    if w.sys.userdata = true then
      some (w.modify fun that => that.set_state key false)
    else
      none
  else if cfg.RTL_ENABLE_APP_RESIZE = true ∧ uMsg = WM_SIZING then
    some (w.guarded fun that => { that with m_sizing := true })
  else if cfg.RTL_ENABLE_APP_RESIZE = true ∧ uMsg = WM_EXITSIZEMOVE then
    some (DefWindowProcW (w.guarded fun that => { that with m_sizing := false }))
  else if cfg.RTL_ENABLE_APP_RESIZE = true ∧ uMsg = WM_SIZE then
    let w := if wParam ≠ SIZE_MINIMIZED
      then w.guarded fun that => { that with m_sized := true }
      else w
    some (DefWindowProcW w)
  else if cfg.RTL_ENABLE_APP_RESIZE = true ∧ uMsg = WM_GETMINMAXINFO then
    let w := if w.sys.userdata = true then w.emit (effect.MinTrackSize 600 400) else w
    some (DefWindowProcW w)
  else if uMsg = WM_PAINT then
    if w.sys.userdata = true then
      let that := w.g_window
      if cfg.RTL_ENABLE_APP_RESIZE = true ∧ that.m_sizing = true then
        some (DefWindowProcW w)
      else
        let w := w.emit effect.BeginPaint
        let w := if that.m_device_context_handle = true ∧ cfg.RTL_ENABLE_APP_SCREEN = true
          then
            let width := that.biWidth
            let height := -that.biHeight
            w.emit (effect.BitBlt (Int.tdiv (that.width - width) 2)
              (Int.tdiv (that.height - height) 2) width height)
          else w
        some (w.emit effect.EndPaint)
    else
      none
  else if uMsg = WM_SETCURSOR then
    if cfg.RTL_ENABLE_APP_CURSOR = false ∨ cfg.RTL_ENABLE_APP_RESIZE = true then
      if LOWORD lParam = HTCLIENT then
        if cfg.RTL_ENABLE_APP_CURSOR = false then
          some (w.emit (effect.SetCursor false))
        else if w.sys.userdata = true then
          some (w.emit (effect.SetCursor (!(w.g_window.fullscreen cfg))))
        else
          none
      else
        some (DefWindowProcW w)
    else
      some (DefWindowProcW w)
  else
    some (DefWindowProcW w)

/-! ## One frame -/

/-- The loop of `window::update` that stores false into `m_input.keys.pressed[i]` for every
`i` below `keyboard::keys::count`. -/
def window.clear_pressed (g : window) : window :=
  (List.range keys_count).foldl (fun g i => g.set_pressed i false) g

/-- The member `window::update`.  The user callbacks act on the state `σ` they own;
`on_update` reads `m_input` and the descriptor `m_output` and returns the action.  What it
draws goes to the pixel memory, which is not modelled; the fields of `m_output` are written
by `window::resize` only. -/
def window.update (cfg : config) (on_resize : σ → σ)
    (on_update : σ → input → output → σ × action) (w : world σ) : world σ :=
  let w := if cfg.RTL_ENABLE_APP_CLOCK = true
    then w.modify fun g => { g with m_input := { g.m_input with clock :=
      { thirds := clock_thirds cfg.measure w.sys.tick } } }
    else w
  let w := if cfg.RTL_ENABLE_APP_RESIZE = true ∧ w.g_window.m_sized = true
    then
      let w := window.destroy_resizable_components cfg w
      let w := window.resize cfg w
      let w := { w with user := on_resize w.user }.emit effect.on_reset
      w.modify fun g => { g with m_sized := false }
    else w
  let r := on_update w.user w.g_window.m_input w.g_window.m_output
  let returned := r.2
  let w := { w with user := r.1 }.emit
    (effect.on_update w.g_window.m_input w.g_window.m_output returned)
  let w := if cfg.RTL_ENABLE_APP_KEYS = true then w.modify window.clear_pressed else w
  match returned with
  | action.close => w.PostQuitMessage
  | action.toggle_fullscreen =>
    if cfg.RTL_ENABLE_APP_RESIZE = true
    then window.set_fullscreen_mode (!w.g_window.m_fullscreen) w
    else window.invalidate w
  | action.none => window.invalidate w

/-- The member `window::create`: the back-reference is registered, the memory device context
is created and the surface is built for the first time. -/
def window.create (cfg : config) (w : world σ) : world σ :=
  let w := if cfg.RTL_ENABLE_APP_RESIZE = true ∧ cfg.RTL_ENABLE_APP_FULLSCREEN = true
    then window.set_fullscreen_mode true w
    else w
  let w := { w with sys := { w.sys with userdata := true } }
  let w := w.modify fun g => { g with m_device_context_handle := true }
  window.resize cfg w

/-! ### The blocks of `window::update`

The body of `window::update` read as five consecutive blocks; `window.update` is their
composition (`update_blocks` below), which is how the properties are proved. -/

/-- The block under `RTL_ENABLE_APP_CLOCK`. -/
def update_clock (cfg : config) (w : world σ) : world σ :=
  if cfg.RTL_ENABLE_APP_CLOCK = true
  then w.modify fun g => { g with m_input := { g.m_input with clock :=
    { thirds := clock_thirds cfg.measure w.sys.tick } } }
  else w

/-- The block under `RTL_ENABLE_APP_RESIZE`: the deferred rebuild of the surface. -/
def update_settle (cfg : config) (on_resize : σ → σ) (w : world σ) : world σ :=
  if cfg.RTL_ENABLE_APP_RESIZE = true ∧ w.g_window.m_sized = true
  then
    let w := window.destroy_resizable_components cfg w
    let w := window.resize cfg w
    let w := { w with user := on_resize w.user }.emit effect.on_reset
    w.modify fun g => { g with m_sized := false }
  else w

/-- The call of the user callback. -/
def update_call (on_update : σ → input → output → σ × action) (w : world σ) : world σ :=
  { w with user := (on_update w.user w.g_window.m_input w.g_window.m_output).1 }.emit
    (effect.on_update w.g_window.m_input w.g_window.m_output
      (on_update w.user w.g_window.m_input w.g_window.m_output).2)

/-- The block under `RTL_ENABLE_APP_KEYS`. -/
def update_consume (cfg : config) (w : world σ) : world σ :=
  if cfg.RTL_ENABLE_APP_KEYS = true then w.modify window.clear_pressed else w

/-- The switch over the returned action. -/
def update_apply (cfg : config) (returned : action) (w : world σ) : world σ :=
  match returned with
  | action.close => w.PostQuitMessage
  | action.toggle_fullscreen =>
    if cfg.RTL_ENABLE_APP_RESIZE = true
    then window.set_fullscreen_mode (!w.g_window.m_fullscreen) w
    else window.invalidate w
  | action.none => window.invalidate w

/-! ## The message loop -/

/-- Win32 `PeekMessageW` with `PM_REMOVE`: the oldest posted message; with none posted, the
`WM_QUIT` owed to `PostQuitMessage`; else nothing. -/
def PeekMessageW (s : platform) : Option MSG × platform :=
  match s.queue with
  | m :: rest => (some m, { s with queue := rest })
  | [] => if s.quit = true then (some ⟨WM_QUIT, 0, 0⟩, { s with quit := false }) else (none, s)

/-- The inner loop of `application::run`: retrieve and dispatch until no message is pending
or `WM_QUIT` is retrieved.  The result holds the last retrieved message `msg`. -/
def drain (cfg : config) (virtual_key_to_enum : Nat → keyboard.keys) :
    Nat → world σ → MSG → Option (world σ × MSG)
  | 0, _, _ => none
  | fuel + 1, w, msg =>
    match PeekMessageW w.sys with
    | (none, s) => some ({ w with sys := s }, msg)
    | (some m, s) =>
      if m.message = WM_QUIT then
        some ({ w with sys := s }, m)
      else
        (window.wnd_proc cfg virtual_key_to_enum { w with sys := s } m.message m.wParam
          m.lParam).bind fun w => drain cfg virtual_key_to_enum fuel w m

/-- The outer loop of `application::run`, at most `fuel` iterations. -/
def run_loop (cfg : config) (virtual_key_to_enum : Nat → keyboard.keys) (on_reset : σ → σ)
    (on_update : σ → input → output → σ × action) : Nat → world σ → MSG → Option (world σ)
  | 0, _, _ => none
  | fuel + 1, w, msg =>
    if msg.message ≠ WM_QUIT then
      (drain cfg virtual_key_to_enum (w.sys.queue.length + 2) w msg).bind fun r =>
        run_loop cfg virtual_key_to_enum on_reset on_update fuel
          (window.update cfg on_reset on_update r.1) r.2
    else
      some w

/-- The entry point `application::run`. -/
def application.run (cfg : config) (virtual_key_to_enum : Nat → keyboard.keys)
    (on_reset : σ → σ) (on_update : σ → input → output → σ × action) (fuel : Nat)
    (w : world σ) : Option (world σ) :=
  let w := window.create cfg w
  let w := { w with user := on_reset w.user }.emit effect.on_reset
  (run_loop cfg virtual_key_to_enum on_reset on_update fuel w ⟨0, 0, 0⟩).map (window.destroy cfg)

/-! ## Interleavings of window messages and frames -/

/-- What can happen to a created window: a message is dispatched to `wnd_proc`, the main
loop calls `window::update`, or the platform changes what it reports. -/
inductive event where
  | message (uMsg wParam lParam : Nat)
  | update
  | environment (tick : Nat) (client : RECT)

/-- One event. -/
def step (cfg : config) (virtual_key_to_enum : Nat → keyboard.keys) (on_reset : σ → σ)
    (on_update : σ → input → output → σ × action) (w : world σ) : event → Option (world σ)
  | event.message uMsg wParam lParam => window.wnd_proc cfg virtual_key_to_enum w uMsg wParam lParam
  | event.update => some (window.update cfg on_reset on_update w)
  | event.environment tick client => some { w with sys := { w.sys with tick := tick, client := client } }

/-- A sequence of events, from left to right. -/
def steps (cfg : config) (virtual_key_to_enum : Nat → keyboard.keys) (on_reset : σ → σ)
    (on_update : σ → input → output → σ × action) : world σ → List event → Option (world σ)
  | w, [] => some w
  | w, e :: es =>
    (step cfg virtual_key_to_enum on_reset on_update w e).bind fun w =>
      steps cfg virtual_key_to_enum on_reset on_update w es

/-! ## Concrete data for the worked instances -/

/-- A build with keys, resize, screen and clock enabled, windowed at launch, for a 32-bit
target. -/
def demo_config : config :=
  { RTL_ENABLE_APP_KEYS := true
    RTL_ENABLE_APP_RESIZE := true
    RTL_ENABLE_APP_SCREEN := true
    RTL_ENABLE_APP_CLOCK := true
    RTL_ENABLE_APP_FULLSCREEN := false
    RTL_ENABLE_APP_CURSOR := true
    size_bits := 32
    measure := 60 }

/-- A key table for the worked instances: `VK_RETURN`, `VK_ESCAPE` and `VK_SPACE` map to their
keys, every other code to `any`. -/
def demo_keys (wParam : Nat) : keyboard.keys :=
  if wParam = 0x0D then keyboard.keys.enter
  else if wParam = 0x1B then keyboard.keys.esc
  else if wParam = 0x20 then keyboard.keys.space
  else keyboard.keys.any

/-- The zero-initialised `g_window` ("all variables must be initialized to zero"). -/
def window.zero : window :=
  { m_device_context_handle := false
    m_client_rect := ⟨0, 0, 0, 0⟩
    m_input := { keys := { state := fun _ => false, pressed := fun _ => false },
                 clock := { thirds := 0 } }
    m_output := { screen := { width := 0, height := 0, pitch := 0 } }
    m_sizing := false
    m_sized := false
    m_fullscreen := false
    m_placement := { rcNormalPosition := ⟨0, 0, 0, 0⟩ }
    biWidth := 0
    biHeight := 0
    m_bitmap_handle := false }

/-- A platform with an 800 x 600 client area on a 1920 x 1080 desktop and no message pending. -/
def demo_platform : platform :=
  { userdata := false
    tick := 0
    client := ⟨0, 0, 800, 600⟩
    desktop := ⟨0, 0, 1920, 1080⟩
    placement := { rcNormalPosition := ⟨100, 100, 916, 739⟩ }
    style := WS_OVERLAPPEDWINDOW
    queue := []
    quit := false
    log := [] }

/-- The state right after `window::create` on the demo platform; the user state is a frame
counter. -/
def demo_world : world Nat :=
  window.create demo_config { g_window := window.zero, sys := demo_platform, user := 0 }

/-- A user callback that counts frames and asks for nothing. -/
def demo_update (n : Nat) (_ : input) (_ : output) : Nat × action := (n + 1, action.none)

/-- A user callback that closes when `esc` was just pressed and toggles fullscreen when
`enter` was just pressed. -/
def demo_update_keys (n : Nat) (i : input) (_ : output) : Nat × action :=
  if i.keys.pressed keyboard.keys.esc.toNat = true then (n + 1, action.close)
  else if i.keys.pressed keyboard.keys.enter.toNat = true then (n + 1, action.toggle_fullscreen)
  else (n + 1, action.none)

/-- The demo window after the user has dragged it to a client area of 1024 x 768: the
size-change notification has set `m_sized`. -/
def demo_resized : world Nat :=
  { demo_world with
    g_window := { demo_world.g_window with m_sized := true }
    sys := { demo_world.sys with client := ⟨0, 0, 1024, 768⟩ } }

/-- The demo window with `VK_RETURN` just pressed. -/
def demo_enter_pressed : world Nat :=
  demo_world.modify fun g => (g.set_pressed 1 true).set_state 1 true

/-- A zero-initialised window on the demo platform with a `WM_CLOSE` and then a key-down
for `VK_RETURN` waiting in the queue. -/
def demo_close_pending : world Nat :=
  { g_window := window.zero
    sys := { demo_platform with queue := [⟨WM_CLOSE, 0, 0⟩, ⟨WM_KEYDOWN, 0x0D, 0⟩] }
    user := 0 }

/-- A zero-initialised window on the demo platform with a `WM_QUIT` and then a key-down for
`VK_RETURN` waiting in the queue. -/
def demo_quit_pending : world Nat :=
  { g_window := window.zero
    sys := { demo_platform with queue := [⟨WM_QUIT, 0, 0⟩, ⟨WM_KEYDOWN, 0x0D, 0⟩] }
    user := 0 }

/-- The demo window at the moment the platform tick count is `tick`. -/
def demo_at_tick (tick : Nat) : world Nat :=
  { demo_world with sys := { demo_world.sys with tick := tick } }

/-- The `toggle_fullscreen` case of `window::update`: `set_fullscreen_mode( !m_fullscreen )`. -/
def toggle_fullscreen (w : world σ) : world σ :=
  window.set_fullscreen_mode (!w.g_window.m_fullscreen) w

/-- The rectangle at the origin with the size of the desktop: what `SetWindowPos` is given
when fullscreen is entered. -/
def platform.desktop_cover (s : platform) : WINDOWPLACEMENT :=
  { rcNormalPosition := ⟨0, 0, s.desktop.right - s.desktop.left, s.desktop.bottom - s.desktop.top⟩ }

/-- The demo window gone fullscreen on the 1920 x 1080 desktop, after which the display mode
has changed to 1280 x 720. -/
def demo_fullscreen_mode_changed : world Nat :=
  { toggle_fullscreen demo_world with
    sys := { (toggle_fullscreen demo_world).sys with desktop := ⟨0, 0, 1280, 720⟩ } }

/-- The actions the update callback has returned so far, oldest first. -/
def returned_actions (log : List effect) : List action :=
  log.filterMap fun e =>
    match e with
    | effect.on_update _ _ a => some a
    | _ => none

/-- A user callback that counts frames and asks to close at once. -/
def demo_update_close (n : Nat) (_ : input) (_ : output) : Nat × action := (n + 1, action.close)

/-- A zero-initialised window on the demo platform, no message pending. -/
def demo_start : world Nat :=
  { g_window := window.zero, sys := demo_platform, user := 0 }

/-- The state after `PeekMessageW` has handed out the `WM_QUIT` owed to `PostQuitMessage`. -/
def quit_retrieved (w : world σ) : world σ :=
  { w with sys := { w.sys with quit := false } }

/-- The inputs handed to the update callback so far, oldest first. -/
def seen (log : List effect) : List input :=
  log.filterMap fun e =>
    match e with
    | effect.on_update i _ _ => some i
    | _ => none

/-- The event is a `WM_KEYDOWN` whose key code maps to index `k`. -/
def event.is_key_down (vk : Nat → keyboard.keys) (k : Nat) : event → Bool
  | event.message uMsg wParam _ => decide (uMsg = WM_KEYDOWN ∧ (vk wParam).toNat = k)
  | _ => false

/-- The event is a `WM_KEYUP` whose key code maps to index `k`. -/
def event.is_key_up (vk : Nat → keyboard.keys) (k : Nat) : event → Bool
  | event.message uMsg wParam _ => decide (uMsg = WM_KEYUP ∧ (vk wParam).toNat = k)
  | _ => false

/-- The event is a call of `window::update`. -/
def event.is_update : event → Bool
  | event.update => true
  | _ => false

/-- The key arrays handed to the update callback so far, oldest first. -/
def seen_keys (log : List effect) : List input_keys := (seen log).map fun i => i.keys

/-- The reports of a one-shot edge over `n` frames: true in the first frame and false in
every later one. -/
def one_shot : Nat → List Bool
  | 0 => []
  | n + 1 => true :: List.replicate n false

/-- Whether key `k` has been released since the last frame of the sequence; `r` says so
for the time before the sequence. -/
def released_since_update (vk : Nat → keyboard.keys) (k : Nat) : Bool → List event → Bool
  | r, [] => r
  | r, e :: es =>
    if e.is_update = true then released_since_update vk k false es
    else released_since_update vk k (r || e.is_key_up vk k) es

/-- Whether the last key event for `k` in the sequence is a key-down; `h` when the sequence
has no key event for `k`. -/
def last_key_event_down (vk : Nat → keyboard.keys) (k : Nat) : Bool → List event → Bool
  | h, [] => h
  | h, e :: es =>
    if e.is_key_down vk k = true then last_key_event_down vk k true es
    else if e.is_key_up vk k = true then last_key_event_down vk k false es
    else last_key_event_down vk k h es

/-- The key events for `k` alternate: every key-down finds `k` released and every key-up
finds it held; `h` says whether `k` is held before the sequence. -/
def alternating (vk : Nat → keyboard.keys) (k : Nat) : Bool → List event → Bool
  | _, [] => true
  | h, e :: es =>
    if e.is_key_down vk k = true then !h && alternating vk k true es
    else if e.is_key_up vk k = true then h && alternating vk k false es
    else alternating vk k h es

/-- The net parity of the down and up events for key `k`: whether the number of key-downs
minus the number of key-ups is odd. -/
def net_parity (vk : Nat → keyboard.keys) (k : Nat) (evs : List event) : Bool :=
  decide (((evs.countP (event.is_key_down vk k) : Int) - (evs.countP (event.is_key_up vk k) : Int))
    % 2 = 1)

/-- The calls that touch the surface or run a user callback. -/
def effect.is_surface_or_callback : effect → Bool
  | effect.DeleteObject => true
  | effect.CreateDIBSection _ _ => true
  | effect.on_reset => true
  | effect.on_update _ _ _ => true
  | _ => false

/-- The width of the client area the platform reports. -/
def platform.client_width (s : platform) : Int := s.client.right - s.client.left

/-- The height of the client area the platform reports. -/
def platform.client_height (s : platform) : Int := s.client.bottom - s.client.top

/-- The call that allocates the pixel buffer. -/
def effect.is_create : effect → Bool
  | effect.CreateDIBSection _ _ => true
  | _ => false

/-- How often the pixel buffer has been built so far. -/
def rebuilds (log : List effect) : Nat := log.countP effect.is_create

/-- The event is a size-change notification (`WM_SIZE`) that is not a minimize. -/
def event.is_size_change : event → Bool
  | event.message uMsg wParam _ => decide (uMsg = WM_SIZE ∧ wParam ≠ SIZE_MINIMIZED)
  | _ => false

/-- The step from `w` to `w'` keeps the registration of the back-reference, the record
`m_input` and what the callback has seen. -/
def keeps_input (w w' : world σ) : Prop :=
  w'.sys.userdata = w.sys.userdata ∧ w'.g_window.m_input = w.g_window.m_input ∧
    seen w'.sys.log = seen w.sys.log

/-! # Properties -/

/-! ## Input tracker: one event -/

/-- Claim C1.  With key tracking compiled in and the back-reference registered, the
`WM_KEYDOWN` handler returns, and for the key index `k` below `keys::count` that the message
maps to it leaves `state[k]` true, and sets `pressed[k]` to true when `state[k]` was false
before the event. -/
theorem wnd_proc_key_down (cfg : config) (vk : Nat → keyboard.keys) (w : world σ)
    (wParam lParam k : Nat) (hcfg : cfg.RTL_ENABLE_APP_KEYS = true)
    (hthat : w.sys.userdata = true) (hkey : (vk wParam).toNat = k) (hk : k < keys_count) :
    ∃ w', window.wnd_proc cfg vk w WM_KEYDOWN wParam lParam = some w' ∧
      w'.g_window.m_input.keys.state k = true ∧
      (w.g_window.m_input.keys.state k = false → w'.g_window.m_input.keys.pressed k = true) := by
  subst hkey
  by_cases hs : w.g_window.m_input.keys.state (vk wParam).toNat = false
  · simp [window.wnd_proc, WM_CLOSE, WM_KEYDOWN, hcfg, hthat, hs, world.modify,
      window.set_state, window.set_pressed]
  · simp [window.wnd_proc, WM_CLOSE, WM_KEYDOWN, hcfg, hthat, hs, world.modify,
      window.set_state, window.set_pressed]

/-- Worked instance of C1: `VK_RETURN` goes down on the freshly created window. -/
theorem wnd_proc_key_down_witness :
    demo_config.RTL_ENABLE_APP_KEYS = true ∧ demo_world.sys.userdata = true ∧
    (demo_keys 0x0D).toNat = 1 ∧ 1 < keys_count ∧
    ∃ w', window.wnd_proc demo_config demo_keys demo_world WM_KEYDOWN 0x0D 0 = some w' ∧
      w'.g_window.m_input.keys.state 1 = true ∧
      (demo_world.g_window.m_input.keys.state 1 = false →
        w'.g_window.m_input.keys.pressed 1 = true) :=
  ⟨rfl, rfl, rfl, by decide,
    wnd_proc_key_down demo_config demo_keys demo_world 0x0D 0 1 rfl rfl rfl (by decide)⟩

/-! ## How one event acts on the key arrays and on what the callback has seen -/

theorem seen_append (l₁ l₂ : List effect) : seen (l₁ ++ l₂) = seen l₁ ++ seen l₂ := by
  simp [seen, List.filterMap_append]

theorem wnd_proc_keys (cfg : config) (vk : Nat → keyboard.keys) (w : world σ)
    (uMsg wParam lParam : Nat) (hcfg : cfg.RTL_ENABLE_APP_KEYS = true)
    (hthat : w.sys.userdata = true) :
    ∃ w', window.wnd_proc cfg vk w uMsg wParam lParam = some w' ∧
      w'.sys.userdata = true ∧ seen w'.sys.log = seen w.sys.log ∧
      w'.g_window.m_input.keys.state =
        (if uMsg = WM_KEYDOWN then
          Function.update w.g_window.m_input.keys.state (vk wParam).toNat true
        else if uMsg = WM_KEYUP then
          Function.update w.g_window.m_input.keys.state (vk wParam).toNat false
        else w.g_window.m_input.keys.state) ∧
      w'.g_window.m_input.keys.pressed =
        (if uMsg = WM_KEYDOWN ∧ w.g_window.m_input.keys.state (vk wParam).toNat = false then
          Function.update w.g_window.m_input.keys.pressed (vk wParam).toNat true
        else w.g_window.m_input.keys.pressed) := by
  unfold window.wnd_proc
  simp only [hcfg, hthat, true_and, if_true]
  by_cases h1 : uMsg = WM_CLOSE
  · rw [if_pos h1]
    subst h1
    simp [world.PostQuitMessage, seen_append, seen, hthat, WM_CLOSE, WM_KEYDOWN, WM_KEYUP]
  rw [if_neg h1]
  by_cases h2 : uMsg = WM_KEYDOWN
  · rw [if_pos h2]
    subst h2
    by_cases hs : w.g_window.m_input.keys.state (vk wParam).toNat = false <;>
      simp [hs, world.modify, window.set_state, window.set_pressed, hthat]
  rw [if_neg h2]
  by_cases h3 : uMsg = WM_KEYUP
  · rw [if_pos h3]
    subst h3
    simp [world.modify, window.set_state, hthat, WM_KEYDOWN, WM_KEYUP]
  rw [if_neg h3]
  simp only [h2, h3, if_false, false_and]
  by_cases h4 : cfg.RTL_ENABLE_APP_RESIZE = true ∧ uMsg = WM_SIZING
  · rw [if_pos h4]
    simp [world.guarded, world.modify, hthat]
  rw [if_neg h4]
  by_cases h5 : cfg.RTL_ENABLE_APP_RESIZE = true ∧ uMsg = WM_EXITSIZEMOVE
  · rw [if_pos h5]
    simp [world.guarded, world.modify, world.emit, seen_append, seen, hthat]
  rw [if_neg h5]
  by_cases h6 : cfg.RTL_ENABLE_APP_RESIZE = true ∧ uMsg = WM_SIZE
  · rw [if_pos h6]
    by_cases hm : wParam ≠ SIZE_MINIMIZED <;>
      simp [hm, world.guarded, world.modify, world.emit, seen_append, seen, hthat]
  rw [if_neg h6]
  by_cases h7 : cfg.RTL_ENABLE_APP_RESIZE = true ∧ uMsg = WM_GETMINMAXINFO
  · rw [if_pos h7]
    simp [world.emit, seen_append, seen, hthat]
  rw [if_neg h7]
  by_cases h8 : uMsg = WM_PAINT
  · rw [if_pos h8]
    by_cases hz : cfg.RTL_ENABLE_APP_RESIZE = true ∧ w.g_window.m_sizing = true
    · rw [if_pos hz]
      simp [world.emit, seen_append, seen, hthat]
    · rw [if_neg hz]
      by_cases hdc : w.g_window.m_device_context_handle = true ∧
          cfg.RTL_ENABLE_APP_SCREEN = true
      · rw [if_pos hdc]
        simp [world.emit, seen_append, seen, hthat]
      · rw [if_neg hdc]
        simp [world.emit, seen_append, seen, hthat]
  rw [if_neg h8]
  by_cases h9 : uMsg = WM_SETCURSOR
  · rw [if_pos h9]
    by_cases hc : cfg.RTL_ENABLE_APP_CURSOR = false ∨ cfg.RTL_ENABLE_APP_RESIZE = true
    · rw [if_pos hc]
      by_cases hl : LOWORD lParam = HTCLIENT
      · rw [if_pos hl]
        by_cases hcur : cfg.RTL_ENABLE_APP_CURSOR = false
        · rw [if_pos hcur]
          simp [world.emit, seen_append, seen, hthat]
        · rw [if_neg hcur]
          simp [world.emit, seen_append, seen, hthat]
      · rw [if_neg hl]
        simp [world.emit, seen_append, seen, hthat]
    · rw [if_neg hc]
      simp [world.emit, seen_append, seen, hthat]
  rw [if_neg h9]
  simp [world.emit, seen_append, seen, hthat]

/-! ## `window::update` as the composition of its blocks -/

theorem update_blocks (cfg : config) (on_resize : σ → σ)
    (on_update : σ → input → output → σ × action) (w : world σ) :
    window.update cfg on_resize on_update w =
      update_apply cfg
        ((on_update (update_settle cfg on_resize (update_clock cfg w)).user
          (update_settle cfg on_resize (update_clock cfg w)).g_window.m_input
          (update_settle cfg on_resize (update_clock cfg w)).g_window.m_output).2)
        (update_consume cfg (update_call on_update
          (update_settle cfg on_resize (update_clock cfg w)))) := rfl

theorem seen_on_update (i : input) (o : output) (a : action) :
    seen [effect.on_update i o a] = [i] := rfl

theorem clear_pressed_state (g : window) :
    g.clear_pressed.m_input.keys.state = g.m_input.keys.state := by
  simp [window.clear_pressed, keys_count, keyboard.keys.toNat, List.range_succ,
    window.set_pressed]

theorem clear_pressed_pressed (g : window) (k : Nat) :
    g.clear_pressed.m_input.keys.pressed k =
      if k < keys_count then false else g.m_input.keys.pressed k := by
  simp only [window.clear_pressed, keys_count, keyboard.keys.toNat, List.range_succ,
    List.range_zero, List.nil_append, List.cons_append, List.foldl_cons, List.foldl_nil,
    window.set_pressed, Function.update_apply]
  split_ifs <;> first | rfl | omega

theorem keeps_input_trans {a b c : world σ} (h₁ : keeps_input a b) (h₂ : keeps_input b c) :
    keeps_input a c :=
  ⟨h₂.1.trans h₁.1, h₂.2.1.trans h₁.2.1, h₂.2.2.trans h₁.2.2⟩

theorem destroy_resizable_components_keeps (cfg : config) (w : world σ) :
    keeps_input w (window.destroy_resizable_components cfg w) := by
  unfold window.destroy_resizable_components keeps_input
  split <;> simp [world.emit, world.modify, seen_append, seen]

theorem resize_keeps (cfg : config) (w : world σ) : keeps_input w (window.resize cfg w) := by
  unfold window.resize keeps_input
  by_cases h : cfg.RTL_ENABLE_APP_SCREEN = true <;>
    simp [h, world.emit, world.modify, seen_append, seen]

theorem set_fullscreen_mode_keeps (b : Bool) (w : world σ) :
    keeps_input w (window.set_fullscreen_mode b w) := by
  unfold window.set_fullscreen_mode keeps_input
  cases b <;> simp [world.emit, world.modify, seen_append, seen]

theorem update_settle_keeps (cfg : config) (on_resize : σ → σ) (w : world σ) :
    keeps_input w (update_settle cfg on_resize w) := by
  unfold update_settle
  split
  · have h₁ := destroy_resizable_components_keeps cfg w
    have h₂ := resize_keeps cfg (window.destroy_resizable_components cfg w)
    have h₃ := keeps_input_trans h₁ h₂
    unfold keeps_input at h₃ ⊢
    simpa [world.emit, world.modify, seen_append, seen] using h₃
  · exact ⟨rfl, rfl, rfl⟩

theorem update_apply_keeps (cfg : config) (a : action) (w : world σ) :
    keeps_input w (update_apply cfg a w) := by
  cases a
  · simp [update_apply, window.invalidate, keeps_input, world.emit, seen_append, seen]
  · simp [update_apply, keeps_input, world.PostQuitMessage, seen_append, seen]
  · unfold update_apply
    simp only []
    split
    · exact set_fullscreen_mode_keeps _ w
    · simp [window.invalidate, keeps_input, world.emit, seen_append, seen]

theorem update_keys (cfg : config) (on_resize : σ → σ)
    (on_update : σ → input → output → σ × action) (w : world σ) :
    (window.update cfg on_resize on_update w).sys.userdata = w.sys.userdata ∧
    (window.update cfg on_resize on_update w).g_window.m_input.keys.state =
      w.g_window.m_input.keys.state ∧
    (∀ k, (window.update cfg on_resize on_update w).g_window.m_input.keys.pressed k =
      if cfg.RTL_ENABLE_APP_KEYS = true ∧ k < keys_count then false
      else w.g_window.m_input.keys.pressed k) ∧
    ∃ i, seen (window.update cfg on_resize on_update w).sys.log = seen w.sys.log ++ [i] ∧
      i.keys = w.g_window.m_input.keys := by
  rw [update_blocks]
  generalize hw₁ : update_clock cfg w = w₁
  have c₁ : w₁.sys.userdata = w.sys.userdata ∧
      w₁.g_window.m_input.keys = w.g_window.m_input.keys ∧ seen w₁.sys.log = seen w.sys.log := by
    subst hw₁
    unfold update_clock
    split <;> simp [world.modify]
  have c₂ := update_settle_keeps cfg on_resize w₁
  generalize update_settle cfg on_resize w₁ = w₂ at c₂ ⊢
  generalize (on_update w₂.user w₂.g_window.m_input w₂.g_window.m_output).2 = a
  have c₃ := update_apply_keeps cfg a (update_consume cfg (update_call on_update w₂))
  obtain ⟨a₁, a₂, a₃⟩ := c₃
  obtain ⟨b₁, b₂, b₃⟩ := c₂
  obtain ⟨d₁, d₂, d₃⟩ := c₁
  rw [a₁, a₂, a₃]
  by_cases hk : cfg.RTL_ENABLE_APP_KEYS = true
  · refine ⟨?_, ?_, ?_, w₂.g_window.m_input, ?_, ?_⟩
    · simp [update_consume, update_call, hk, world.modify, world.emit, b₁, d₁]
    · simp [update_consume, update_call, hk, world.modify, world.emit, clear_pressed_state,
        b₂, d₂]
    · intro k
      simp [update_consume, update_call, hk, world.modify, world.emit, clear_pressed_pressed,
        b₂, d₂]
    · simp [update_consume, update_call, hk, world.modify, world.emit, seen_append,
        seen_on_update, b₃, d₃]
    · rw [b₂, d₂]
  · refine ⟨?_, ?_, ?_, w₂.g_window.m_input, ?_, ?_⟩
    · simp [update_consume, update_call, hk, world.modify, world.emit, b₁, d₁]
    · simp [update_consume, update_call, hk, world.modify, world.emit, b₂, d₂]
    · intro k
      simp [update_consume, update_call, hk, world.modify, world.emit, b₂, d₂]
    · simp [update_consume, update_call, hk, world.modify, world.emit, seen_append,
        seen_on_update, b₃, d₃]
    · rw [b₂, d₂]

theorem seen_keys_append (l₁ l₂ : List effect) :
    seen_keys (l₁ ++ l₂) = seen_keys l₁ ++ seen_keys l₂ := by
  simp [seen_keys, seen_append]

/-- The effect of one event on key `k`, with key tracking compiled in and the back-reference
registered: the event is carried out, `state[k]` follows the key messages for `k`,
`pressed[k]` is set by a key-down that finds `state[k]` false and cleared by a frame, and a
frame shows the callback the arrays as they were before it. -/
theorem step_keys (cfg : config) (vk : Nat → keyboard.keys) (on_reset : σ → σ)
    (on_update : σ → input → output → σ × action) (w : world σ) (e : event) (k : Nat)
    (hcfg : cfg.RTL_ENABLE_APP_KEYS = true) (hthat : w.sys.userdata = true) :
    ∃ w', step cfg vk on_reset on_update w e = some w' ∧ w'.sys.userdata = true ∧
      w'.g_window.m_input.keys.state k =
        (if e.is_key_down vk k = true then true
         else if e.is_key_up vk k = true then false
         else w.g_window.m_input.keys.state k) ∧
      w'.g_window.m_input.keys.pressed k =
        (if e.is_update = true ∧ k < keys_count then false
         else if e.is_key_down vk k = true ∧ w.g_window.m_input.keys.state k = false then true
         else w.g_window.m_input.keys.pressed k) ∧
      seen_keys w'.sys.log =
        seen_keys w.sys.log ++ (if e.is_update = true then [w.g_window.m_input.keys] else []) := by
  cases e with
  | message uMsg wParam lParam =>
    obtain ⟨w', h, hu, hseen, hstate, hpressed⟩ :=
      wnd_proc_keys cfg vk w uMsg wParam lParam hcfg hthat
    refine ⟨w', h, hu, ?_, ?_, ?_⟩
    · rw [hstate]
      by_cases hd : uMsg = WM_KEYDOWN
      · subst hd
        by_cases hkey : (vk wParam).toNat = k
        · subst hkey
          simp [event.is_key_down]
        · simp [event.is_key_down, event.is_key_up, hkey, WM_KEYDOWN, WM_KEYUP,
            Function.update_apply, Ne.symm hkey]
      · by_cases hup : uMsg = WM_KEYUP
        · subst hup
          by_cases hkey : (vk wParam).toNat = k
          · subst hkey
            simp [event.is_key_down, event.is_key_up, WM_KEYDOWN, WM_KEYUP]
          · simp [event.is_key_down, event.is_key_up, hkey, WM_KEYDOWN, WM_KEYUP,
              Function.update_apply, Ne.symm hkey]
        · simp [event.is_key_down, event.is_key_up, hd, hup]
    · rw [hpressed]
      by_cases hd : uMsg = WM_KEYDOWN
      · subst hd
        by_cases hkey : (vk wParam).toNat = k
        · subst hkey
          by_cases hs : w.g_window.m_input.keys.state (vk wParam).toNat = false <;>
            simp [event.is_key_down, event.is_update, hs]
        · by_cases hs : w.g_window.m_input.keys.state (vk wParam).toNat = false <;>
            simp [event.is_key_down, event.is_update, hs, hkey, Function.update_apply,
              Ne.symm hkey]
      · simp [event.is_key_down, event.is_update, hd]
    · simp [seen_keys, hseen, event.is_update]
  | update =>
    obtain ⟨hu, hstate, hpressed, i, hseen, hi⟩ := update_keys cfg on_reset on_update w
    refine ⟨_, rfl, hu.trans hthat, ?_, ?_, ?_⟩
    · rw [hstate]
      simp [event.is_key_down, event.is_key_up]
    · rw [hpressed]
      simp [event.is_key_down, event.is_update, hcfg]
    · simp [seen_keys, hseen, hi, event.is_update]
  | environment tick client =>
    exact ⟨_, rfl, hthat, by simp [event.is_key_down, event.is_key_up],
      by simp [event.is_key_down, event.is_update], by simp [event.is_update]⟩

theorem steps_append (cfg : config) (vk : Nat → keyboard.keys) (on_reset : σ → σ)
    (on_update : σ → input → output → σ × action) (es₁ es₂ : List event) (w : world σ) :
    steps cfg vk on_reset on_update w (es₁ ++ es₂) =
      (steps cfg vk on_reset on_update w es₁).bind fun w' =>
        steps cfg vk on_reset on_update w' es₂ := by
  induction es₁ generalizing w with
  | nil => simp [steps]
  | cons e es ih =>
    simp only [List.cons_append, steps]
    cases step cfg vk on_reset on_update w e with
    | none => simp
    | some w' => simpa using ih w'

/-! ## Input tracker: sequences of events -/

/-- While `k` stays held, the frames of a sequence without key-up for `k` report `pressed[k]`
in the first frame only, and only if it is set at the start. -/
theorem held_frames (cfg : config) (vk : Nat → keyboard.keys) (on_reset : σ → σ)
    (on_update : σ → input → output → σ × action) (k : Nat)
    (hcfg : cfg.RTL_ENABLE_APP_KEYS = true) (hk : k < keys_count) (rest : List event) :
    ∀ w : world σ, w.sys.userdata = true → w.g_window.m_input.keys.state k = true →
      (∀ e ∈ rest, event.is_key_up vk k e = false) →
      ∃ w', steps cfg vk on_reset on_update w rest = some w' ∧
        (seen_keys w'.sys.log).map (fun i => i.pressed k) =
          (seen_keys w.sys.log).map (fun i => i.pressed k) ++
            (if w.g_window.m_input.keys.pressed k = true
             then one_shot (rest.countP event.is_update)
             else List.replicate (rest.countP event.is_update) false) := by
  induction rest with
  | nil =>
    intro w _ _ _
    refine ⟨w, rfl, ?_⟩
    by_cases hp : w.g_window.m_input.keys.pressed k = true <;> simp [hp, one_shot]
  | cons e es ih =>
    intro w hthat hheld hrest
    obtain ⟨w₁, h₁, hu₁, hs₁, hp₁, hseen₁⟩ := step_keys cfg vk on_reset on_update w e k hcfg hthat
    have hup : event.is_key_up vk k e = false := hrest e (List.mem_cons_self _ _)
    have hheld₁ : w₁.g_window.m_input.keys.state k = true := by
      rw [hs₁, hup, hheld]
      simp
    obtain ⟨w', h', hseen'⟩ := ih w₁ hu₁ hheld₁ fun e' he' => hrest e' (List.mem_cons_of_mem _ he')
    refine ⟨w', by simp [steps, h₁, h'], ?_⟩
    rw [hseen', hseen₁, hp₁]
    by_cases hf : e.is_update = true
    · by_cases hp : w.g_window.m_input.keys.pressed k = true <;>
        simp [hf, hk, hp, hheld, one_shot, List.replicate_succ]
    · by_cases hp : w.g_window.m_input.keys.pressed k = true <;>
        simp [hf, hk, hp, hheld]

/-- Claim C2.  Key `k` is not held, goes down once and then receives any number of further
key-downs but no key-up, interleaved arbitrarily with frames (and with any other events):
the run is carried out, and of its frames the first one after the initial key-down shows the
callback `pressed[k]` true and every later one shows it false. -/
theorem pressed_reported_in_one_frame (cfg : config) (vk : Nat → keyboard.keys)
    (on_reset : σ → σ) (on_update : σ → input → output → σ × action) (w : world σ)
    (k wParam lParam : Nat) (rest : List event)
    (hcfg : cfg.RTL_ENABLE_APP_KEYS = true) (hthat : w.sys.userdata = true)
    (hk : k < keys_count) (hkey : (vk wParam).toNat = k)
    (hheld : w.g_window.m_input.keys.state k = false)
    (hrest : ∀ e ∈ rest, event.is_key_up vk k e = false) :
    ∃ w', steps cfg vk on_reset on_update w (event.message WM_KEYDOWN wParam lParam :: rest)
        = some w' ∧
      (seen_keys w'.sys.log).map (fun i => i.pressed k) =
        (seen_keys w.sys.log).map (fun i => i.pressed k) ++
          one_shot (rest.countP event.is_update) := by
  obtain ⟨w₁, h₁, hu₁, hs₁, hp₁, hseen₁⟩ :=
    step_keys cfg vk on_reset on_update w (event.message WM_KEYDOWN wParam lParam) k hcfg hthat
  have hdown : event.is_key_down vk k (event.message WM_KEYDOWN wParam lParam) = true := by
    simp [event.is_key_down, hkey]
  have hheld₁ : w₁.g_window.m_input.keys.state k = true := by
    rw [hs₁, hdown]
    simp
  have hpressed₁ : w₁.g_window.m_input.keys.pressed k = true := by
    rw [hp₁, hdown, hheld]
    simp [event.is_update]
  obtain ⟨w', h', hseen'⟩ := held_frames cfg vk on_reset on_update k hcfg hk rest w₁ hu₁ hheld₁ hrest
  refine ⟨w', by simp [steps, h₁, h'], ?_⟩
  rw [hseen', hseen₁, hpressed₁]
  simp [event.is_update]

/-- Worked instance of C2: `VK_RETURN` goes down, a frame, two repeats, two frames, `VK_SPACE`
goes down and up, one more frame. -/
theorem pressed_reported_in_one_frame_witness :
    demo_config.RTL_ENABLE_APP_KEYS = true ∧ demo_world.sys.userdata = true ∧
    1 < keys_count ∧ (demo_keys 0x0D).toNat = 1 ∧
    demo_world.g_window.m_input.keys.state 1 = false ∧
    (∀ e ∈ [event.update, event.message WM_KEYDOWN 0x0D 0, event.message WM_KEYDOWN 0x0D 0,
        event.update, event.update, event.message WM_KEYDOWN 0x20 0,
        event.message WM_KEYUP 0x20 0, event.update], event.is_key_up demo_keys 1 e = false) ∧
    ∃ w', steps demo_config demo_keys id demo_update demo_world
        (event.message WM_KEYDOWN 0x0D 0 ::
          [event.update, event.message WM_KEYDOWN 0x0D 0, event.message WM_KEYDOWN 0x0D 0,
            event.update, event.update, event.message WM_KEYDOWN 0x20 0,
            event.message WM_KEYUP 0x20 0, event.update]) = some w' ∧
      (seen_keys w'.sys.log).map (fun i => i.pressed 1) =
        (seen_keys demo_world.sys.log).map (fun i => i.pressed 1) ++
          one_shot (List.countP event.is_update
            [event.update, event.message WM_KEYDOWN 0x0D 0, event.message WM_KEYDOWN 0x0D 0,
              event.update, event.update, event.message WM_KEYDOWN 0x20 0,
              event.message WM_KEYUP 0x20 0, event.update]) :=
  ⟨rfl, rfl, by decide, rfl, rfl, by decide,
    pressed_reported_in_one_frame demo_config demo_keys id demo_update demo_world 1 0x0D 0 _
      rfl rfl (by decide) rfl rfl (by decide)⟩

/-- Claim C3 fails as stated: the callback can be shown a key in `pressed` that is not in
`state`.  `VK_RETURN` goes down and up again before the frame. -/
theorem pressed_subset_held_counterexample :
    (steps demo_config demo_keys id demo_update demo_world
      [event.message WM_KEYDOWN 0x0D 0, event.message WM_KEYUP 0x0D 0, event.update]).map
        (fun w => (seen_keys w.sys.log).map fun i => (i.pressed 1, i.state 1))
      = some [(true, false)] := by
  decide

theorem released_invariant (cfg : config) (vk : Nat → keyboard.keys) (on_reset : σ → σ)
    (on_update : σ → input → output → σ × action) (k : Nat)
    (hcfg : cfg.RTL_ENABLE_APP_KEYS = true) (hk : k < keys_count) (evs : List event) :
    ∀ (w : world σ) (r : Bool), w.sys.userdata = true →
      (w.g_window.m_input.keys.pressed k = true →
        w.g_window.m_input.keys.state k = true ∨ r = true) →
      ∃ w', steps cfg vk on_reset on_update w evs = some w' ∧ w'.sys.userdata = true ∧
        (w'.g_window.m_input.keys.pressed k = true →
          w'.g_window.m_input.keys.state k = true ∨ released_since_update vk k r evs = true) := by
  induction evs with
  | nil =>
    intro w r hthat hinv
    exact ⟨w, rfl, hthat, hinv⟩
  | cons e es ih =>
    intro w r hthat hinv
    obtain ⟨w₁, h₁, hu₁, hs₁, hp₁, -⟩ := step_keys cfg vk on_reset on_update w e k hcfg hthat
    by_cases hf : e.is_update = true
    · obtain ⟨w', h', hu', hinv'⟩ := ih w₁ false hu₁ (by
        intro hp
        rw [hp₁] at hp
        simp [hf, hk] at hp)
      refine ⟨w', by simp [steps, h₁, h'], hu', ?_⟩
      simpa [released_since_update, hf] using hinv'
    · obtain ⟨w', h', hu', hinv'⟩ := ih w₁ (r || e.is_key_up vk k) hu₁ (by
        intro hp
        rw [hp₁] at hp
        rw [hs₁]
        by_cases hd : e.is_key_down vk k = true
        · simp [hd]
        · by_cases hup : e.is_key_up vk k = true
          · simp [hup]
          · simp only [hf, hd, false_and, if_false] at hp
            rcases hinv hp with h | h
            · simp [hd, hup, h]
            · simp [h])
      refine ⟨w', by simp [steps, h₁, h'], hu', ?_⟩
      simpa [released_since_update, hf] using hinv'

/-- Claim C3, as the code has it.  From a state with `pressed[k]` clear, after any sequence
of events: the next frame shows the callback the key arrays of that moment, and if
`pressed[k]` is set in them then `state[k]` is set as well or `k` has received a key-up
since the previous frame. -/
theorem pressed_held_or_released (cfg : config) (vk : Nat → keyboard.keys)
    (on_reset : σ → σ) (on_update : σ → input → output → σ × action) (w : world σ) (k : Nat)
    (pre : List event) (hcfg : cfg.RTL_ENABLE_APP_KEYS = true)
    (hthat : w.sys.userdata = true) (hk : k < keys_count)
    (hzero : w.g_window.m_input.keys.pressed k = false) :
    ∃ w₁ w' i, steps cfg vk on_reset on_update w pre = some w₁ ∧
      steps cfg vk on_reset on_update w (pre ++ [event.update]) = some w' ∧
      seen_keys w'.sys.log = seen_keys w₁.sys.log ++ [i] ∧
      (i.pressed k = true → i.state k = true ∨ released_since_update vk k false pre = true) := by
  obtain ⟨w₁, h₁, hu₁, hinv⟩ :=
    released_invariant cfg vk on_reset on_update k hcfg hk pre w false hthat (by simp [hzero])
  obtain ⟨w', h', -, -, -, hseen⟩ :=
    step_keys cfg vk on_reset on_update w₁ event.update k hcfg hu₁
  refine ⟨w₁, w', w₁.g_window.m_input.keys, h₁, ?_, ?_, hinv⟩
  · rw [steps_append, h₁]
    simp [steps, h']
  · simpa [event.is_update] using hseen

/-- Worked instance of C3: `VK_RETURN` down, a frame, `VK_RETURN` up, `VK_SPACE` down, and
the frame that follows. -/
theorem pressed_held_or_released_witness :
    demo_config.RTL_ENABLE_APP_KEYS = true ∧ demo_world.sys.userdata = true ∧
    3 < keys_count ∧ demo_world.g_window.m_input.keys.pressed 3 = false ∧
    ∃ w₁ w' i, steps demo_config demo_keys id demo_update demo_world
        [event.message WM_KEYDOWN 0x0D 0, event.update, event.message WM_KEYUP 0x0D 0,
          event.message WM_KEYDOWN 0x20 0] = some w₁ ∧
      steps demo_config demo_keys id demo_update demo_world
        ([event.message WM_KEYDOWN 0x0D 0, event.update, event.message WM_KEYUP 0x0D 0,
          event.message WM_KEYDOWN 0x20 0] ++ [event.update]) = some w' ∧
      seen_keys w'.sys.log = seen_keys w₁.sys.log ++ [i] ∧
      (i.pressed 3 = true → i.state 3 = true ∨
        released_since_update demo_keys 3 false
          [event.message WM_KEYDOWN 0x0D 0, event.update, event.message WM_KEYUP 0x0D 0,
            event.message WM_KEYDOWN 0x20 0] = true) :=
  ⟨rfl, rfl, by decide, rfl,
    pressed_held_or_released demo_config demo_keys id demo_update demo_world 3 _ rfl rfl
      (by decide) rfl⟩

/-- Claim C4 fails as stated: after a key-down and its repeat for `VK_RETURN` the key is held,
while the net count of down and up events is two, which is even. -/
theorem held_net_parity_counterexample :
    (steps demo_config demo_keys id demo_update demo_world
      [event.message WM_KEYDOWN 0x0D 0, event.message WM_KEYDOWN 0x0D 0]).map
        (fun w => w.g_window.m_input.keys.state 1) = some true ∧
    net_parity demo_keys 1 [event.message WM_KEYDOWN 0x0D 0, event.message WM_KEYDOWN 0x0D 0]
      = false := by
  decide

theorem held_follows_last_key_event (cfg : config) (vk : Nat → keyboard.keys)
    (on_reset : σ → σ) (on_update : σ → input → output → σ × action) (k : Nat)
    (hcfg : cfg.RTL_ENABLE_APP_KEYS = true) (evs : List event) :
    ∀ w : world σ, w.sys.userdata = true →
      ∃ w', steps cfg vk on_reset on_update w evs = some w' ∧
        w'.g_window.m_input.keys.state k =
          last_key_event_down vk k (w.g_window.m_input.keys.state k) evs := by
  induction evs with
  | nil =>
    intro w _
    exact ⟨w, rfl, rfl⟩
  | cons e es ih =>
    intro w hthat
    obtain ⟨w₁, h₁, hu₁, hs₁, -, -⟩ := step_keys cfg vk on_reset on_update w e k hcfg hthat
    obtain ⟨w', h', hs'⟩ := ih w₁ hu₁
    refine ⟨w', by simp [steps, h₁, h'], ?_⟩
    rw [hs', hs₁]
    by_cases hd : e.is_key_down vk k = true
    · simp [last_key_event_down, hd]
    · by_cases hup : e.is_key_up vk k = true
      · simp [last_key_event_down, hd, hup]
      · simp [last_key_event_down, hd, hup]

theorem key_down_not_key_up (vk : Nat → keyboard.keys) (k : Nat) (e : event)
    (h : e.is_key_down vk k = true) : e.is_key_up vk k = false := by
  cases e with
  | message uMsg wParam lParam =>
    simp only [event.is_key_down, decide_eq_true_eq] at h
    simp [event.is_key_up, h.1, WM_KEYDOWN, WM_KEYUP]
  | update => rfl
  | environment tick client => rfl

theorem alternating_net_count (vk : Nat → keyboard.keys) (k : Nat) (evs : List event) :
    ∀ h : Bool, alternating vk k h evs = true →
      ((evs.countP (event.is_key_down vk k) : Int) - (evs.countP (event.is_key_up vk k) : Int)) =
        (if last_key_event_down vk k h evs = true then 1 else 0) - (if h = true then 1 else 0) := by
  induction evs with
  | nil =>
    intro h _
    simp [last_key_event_down]
  | cons e es ih =>
    intro h halt
    by_cases hd : e.is_key_down vk k = true
    · have hup := key_down_not_key_up vk k e hd
      simp only [alternating, hd, if_true, Bool.and_eq_true, Bool.not_eq_true'] at halt
      have := ih true halt.2
      simp only [List.countP_cons, hd, hup, last_key_event_down, if_true] at this ⊢
      rw [halt.1]
      simp only [Bool.false_eq_true, if_false, if_true] at this ⊢
      push_cast
      omega
    · have hd' : e.is_key_down vk k = false := by simpa using hd
      by_cases hup : e.is_key_up vk k = true
      · simp only [alternating, hd', hup, if_true, if_false, Bool.and_eq_true,
          Bool.false_eq_true] at halt
        have := ih false halt.2
        simp only [List.countP_cons, hd', hup, last_key_event_down, if_true, if_false,
          Bool.false_eq_true] at this ⊢
        rw [halt.1]
        simp only [if_true] at this ⊢
        push_cast
        omega
      · have hup' : e.is_key_up vk k = false := by simpa using hup
        simp only [alternating, hd', hup', if_false, Bool.false_eq_true] at halt
        have := ih h halt
        simp only [List.countP_cons, hd', hup', last_key_event_down, if_false,
          Bool.false_eq_true] at this ⊢
        simpa using this

/-- Claim C4, as the code has it.  From a state in which `k` is not held, after any sequence
of events `state[k]` tells whether the last key event for `k` was a key-down; and when the
key events for `k` alternate (no repeated key-down, no key-up of a released key), this is
the net parity of the down and up events for `k`. -/
theorem held_is_last_key_event (cfg : config) (vk : Nat → keyboard.keys)
    (on_reset : σ → σ) (on_update : σ → input → output → σ × action) (w : world σ) (k : Nat)
    (evs : List event) (hcfg : cfg.RTL_ENABLE_APP_KEYS = true)
    (hthat : w.sys.userdata = true) (hzero : w.g_window.m_input.keys.state k = false) :
    ∃ w', steps cfg vk on_reset on_update w evs = some w' ∧
      w'.g_window.m_input.keys.state k = last_key_event_down vk k false evs ∧
      (alternating vk k false evs = true →
        w'.g_window.m_input.keys.state k = net_parity vk k evs) := by
  obtain ⟨w', h', hs'⟩ := held_follows_last_key_event cfg vk on_reset on_update k hcfg evs w hthat
  rw [hzero] at hs'
  refine ⟨w', h', hs', fun halt => ?_⟩
  have hnet := alternating_net_count vk k evs false halt
  rw [hs']
  unfold net_parity
  rw [hnet]
  cases last_key_event_down vk k false evs <;> simp

/-- Worked instance of C4: `VK_ESCAPE` down, up, down, with a frame and a `VK_SPACE` key-down
in between. -/
theorem held_is_last_key_event_witness :
    demo_config.RTL_ENABLE_APP_KEYS = true ∧ demo_world.sys.userdata = true ∧
    demo_world.g_window.m_input.keys.state 2 = false ∧
    ∃ w', steps demo_config demo_keys id demo_update demo_world
        [event.message WM_KEYDOWN 0x1B 0, event.update, event.message WM_KEYUP 0x1B 0,
          event.message WM_KEYDOWN 0x20 0, event.message WM_KEYDOWN 0x1B 0] = some w' ∧
      w'.g_window.m_input.keys.state 2 = last_key_event_down demo_keys 2 false
        [event.message WM_KEYDOWN 0x1B 0, event.update, event.message WM_KEYUP 0x1B 0,
          event.message WM_KEYDOWN 0x20 0, event.message WM_KEYDOWN 0x1B 0] ∧
      (alternating demo_keys 2 false
        [event.message WM_KEYDOWN 0x1B 0, event.update, event.message WM_KEYUP 0x1B 0,
          event.message WM_KEYDOWN 0x20 0, event.message WM_KEYDOWN 0x1B 0] = true →
        w'.g_window.m_input.keys.state 2 = net_parity demo_keys 2
          [event.message WM_KEYDOWN 0x1B 0, event.update, event.message WM_KEYUP 0x1B 0,
            event.message WM_KEYDOWN 0x20 0, event.message WM_KEYDOWN 0x1B 0]) :=
  ⟨rfl, rfl, rfl,
    held_is_last_key_event demo_config demo_keys id demo_update demo_world 2 _ rfl rfl rfl⟩

/-- Claim C5 fails as stated: a repeated `WM_KEYDOWN` for `VK_RETURN` in the same frame finds
the key held, and `pressed` still contains it afterwards. -/
theorem key_down_pressed_iff_counterexample :
    ∃ w w', window.wnd_proc demo_config demo_keys demo_world WM_KEYDOWN 0x0D 0 = some w ∧
      window.wnd_proc demo_config demo_keys w WM_KEYDOWN 0x0D 0 = some w' ∧
      ¬ (w'.g_window.m_input.keys.pressed 1 = true ↔ w.g_window.m_input.keys.state 1 = false) :=
  ⟨_, _, rfl, rfl, by decide⟩

/-- Claim C5, as the code has it.  After a key-down event for `k`, `pressed` contains `k` if
and only if `state[k]` was false immediately before the event or `pressed` already contained
`k`; so for a key not yet in `pressed`, if and only if `state[k]` was false. -/
theorem key_down_pressed_iff (cfg : config) (vk : Nat → keyboard.keys) (w : world σ)
    (wParam lParam k : Nat) (hcfg : cfg.RTL_ENABLE_APP_KEYS = true)
    (hthat : w.sys.userdata = true) (hkey : (vk wParam).toNat = k) :
    ∃ w', window.wnd_proc cfg vk w WM_KEYDOWN wParam lParam = some w' ∧
      (w'.g_window.m_input.keys.pressed k = true ↔
        (w.g_window.m_input.keys.state k = false ∨ w.g_window.m_input.keys.pressed k = true)) ∧
      (w.g_window.m_input.keys.pressed k = false →
        (w'.g_window.m_input.keys.pressed k = true ↔
          w.g_window.m_input.keys.state k = false)) := by
  subst hkey
  by_cases hs : w.g_window.m_input.keys.state (vk wParam).toNat = false
  · simp [window.wnd_proc, WM_CLOSE, WM_KEYDOWN, hcfg, hthat, hs, world.modify,
      window.set_state, window.set_pressed]
  · simp [window.wnd_proc, WM_CLOSE, WM_KEYDOWN, hcfg, hthat, hs, world.modify,
      window.set_state, window.set_pressed]

/-- Worked instance of C5: `VK_SPACE` goes down on the freshly created window. -/
theorem key_down_pressed_iff_witness :
    demo_config.RTL_ENABLE_APP_KEYS = true ∧ demo_world.sys.userdata = true ∧
    (demo_keys 0x20).toNat = 3 ∧
    ∃ w', window.wnd_proc demo_config demo_keys demo_world WM_KEYDOWN 0x20 0 = some w' ∧
      (w'.g_window.m_input.keys.pressed 3 = true ↔
        (demo_world.g_window.m_input.keys.state 3 = false ∨
          demo_world.g_window.m_input.keys.pressed 3 = true)) ∧
      (demo_world.g_window.m_input.keys.pressed 3 = false →
        (w'.g_window.m_input.keys.pressed 3 = true ↔
          demo_world.g_window.m_input.keys.state 3 = false)) :=
  ⟨rfl, rfl, rfl, key_down_pressed_iff demo_config demo_keys demo_world 0x20 0 3 rfl rfl rfl⟩

/-! ## One frame: the parts of `window::update` -/

theorem update_clock_frame (cfg : config) (w : world σ) :
    (update_clock cfg w).sys = w.sys ∧ (update_clock cfg w).user = w.user ∧
    (update_clock cfg w).g_window.m_sized = w.g_window.m_sized ∧
    (update_clock cfg w).g_window.m_output = w.g_window.m_output ∧
    (update_clock cfg w).g_window.m_bitmap_handle = w.g_window.m_bitmap_handle ∧
    (update_clock cfg w).g_window.m_fullscreen = w.g_window.m_fullscreen := by
  unfold update_clock
  split <;> simp [world.modify]

theorem update_settle_idle (cfg : config) (on_resize : σ → σ) (w : world σ)
    (h : ¬ (cfg.RTL_ENABLE_APP_RESIZE = true ∧ w.g_window.m_sized = true)) :
    update_settle cfg on_resize w = w := by
  simp only [update_settle, h, if_false]

theorem update_settle_sized (cfg : config) (on_resize : σ → σ) (w : world σ)
    (hresize : cfg.RTL_ENABLE_APP_RESIZE = true) (hscreen : cfg.RTL_ENABLE_APP_SCREEN = true)
    (hsized : w.g_window.m_sized = true) :
    (update_settle cfg on_resize w).sys.log =
      w.sys.log ++ (if w.g_window.m_bitmap_handle = true then [effect.DeleteObject] else []) ++
        [effect.CreateDIBSection w.sys.client_width (-w.sys.client_height), effect.on_reset] ∧
    (update_settle cfg on_resize w).g_window.m_output =
      { screen := { width := w.sys.client_width, height := w.sys.client_height,
                    pitch := pitch_of cfg.size_bits w.sys.client_width } } ∧
    (update_settle cfg on_resize w).g_window.m_sized = false ∧
    (update_settle cfg on_resize w).g_window.m_bitmap_handle = true ∧
    (update_settle cfg on_resize w).g_window.m_fullscreen = w.g_window.m_fullscreen ∧
    (update_settle cfg on_resize w).sys.quit = w.sys.quit ∧
    (update_settle cfg on_resize w).user = on_resize w.user := by
  by_cases hb : w.g_window.m_bitmap_handle = true <;>
    simp [update_settle, hresize, hscreen, hsized, hb, window.destroy_resizable_components,
      window.resize, world.emit, world.modify, window.width, window.height,
      platform.client_width, platform.client_height]

theorem update_consume_frame (cfg : config) (w : world σ) :
    (update_consume cfg w).sys = w.sys ∧ (update_consume cfg w).user = w.user ∧
    (update_consume cfg w).g_window.m_sized = w.g_window.m_sized ∧
    (update_consume cfg w).g_window.m_output = w.g_window.m_output ∧
    (update_consume cfg w).g_window.m_bitmap_handle = w.g_window.m_bitmap_handle ∧
    (update_consume cfg w).g_window.m_fullscreen = w.g_window.m_fullscreen := by
  unfold update_consume
  split
  · simp [world.modify, window.clear_pressed, keys_count, keyboard.keys.toNat, List.range_succ,
      window.set_pressed]
  · simp

/-- The switch over the returned action: what it appends to the log and what it changes. -/
theorem update_apply_spec (cfg : config) (a : action) (w : world σ) :
    (update_apply cfg a w).g_window.m_output = w.g_window.m_output ∧
    (update_apply cfg a w).g_window.m_sized = w.g_window.m_sized ∧
    (update_apply cfg a w).g_window.m_bitmap_handle = w.g_window.m_bitmap_handle ∧
    ∃ tail, (update_apply cfg a w).sys.log = w.sys.log ++ tail ∧
      (∀ e ∈ tail, e.is_surface_or_callback = false) ∧
      (a = action.close → tail = [effect.PostQuitMessage] ∧
        (update_apply cfg a w).sys.quit = true ∧
        (update_apply cfg a w).g_window.m_fullscreen = w.g_window.m_fullscreen) ∧
      (a = action.none → tail = [effect.InvalidateRect] ∧
        (update_apply cfg a w).sys.quit = w.sys.quit ∧
        (update_apply cfg a w).g_window.m_fullscreen = w.g_window.m_fullscreen) ∧
      (a = action.toggle_fullscreen → cfg.RTL_ENABLE_APP_RESIZE = true →
        effect.InvalidateRect ∉ tail ∧ effect.PostQuitMessage ∉ tail ∧
        (update_apply cfg a w).sys.quit = w.sys.quit ∧
        (update_apply cfg a w).g_window.m_fullscreen = !w.g_window.m_fullscreen) := by
  cases a
  · refine ⟨rfl, rfl, rfl, [effect.InvalidateRect], rfl, ?_, ?_, ?_, ?_⟩
    · simp [effect.is_surface_or_callback]
    · simp
    · simp [update_apply, window.invalidate, world.emit]
    · simp
  · refine ⟨rfl, rfl, rfl, [effect.PostQuitMessage], rfl, ?_, ?_, ?_, ?_⟩
    · simp [effect.is_surface_or_callback]
    · simp [update_apply, world.PostQuitMessage]
    · simp
    · simp
  · by_cases hr : cfg.RTL_ENABLE_APP_RESIZE = true
    · by_cases hf : w.g_window.m_fullscreen = true
      · refine ⟨?_, ?_, ?_, [effect.SetWindowLongW WS_OVERLAPPEDWINDOW,
          effect.SetWindowPlacement w.g_window.m_placement], ?_, ?_, ?_, ?_, ?_⟩ <;>
          simp [update_apply, hr, hf, window.set_fullscreen_mode, world.emit, world.modify,
            effect.is_surface_or_callback]
      · refine ⟨?_, ?_, ?_, [effect.SetWindowLongW WS_POPUP,
          effect.SetWindowPos 0 0 (w.sys.desktop.right - w.sys.desktop.left)
            (w.sys.desktop.bottom - w.sys.desktop.top)], ?_, ?_, ?_, ?_, ?_⟩ <;>
          simp [update_apply, hr, hf, window.set_fullscreen_mode, world.emit, world.modify,
            effect.is_surface_or_callback]
    · refine ⟨?_, ?_, ?_, [effect.InvalidateRect], ?_, ?_, ?_, ?_, ?_⟩ <;>
        simp [update_apply, hr, window.invalidate, world.emit, effect.is_surface_or_callback]

theorem update_call_frame (on_update : σ → input → output → σ × action) (w : world σ) :
    (update_call on_update w).g_window = w.g_window ∧
    (update_call on_update w).sys.quit = w.sys.quit ∧
    (update_call on_update w).sys.log = w.sys.log ++
      [effect.on_update w.g_window.m_input w.g_window.m_output
        (on_update w.user w.g_window.m_input w.g_window.m_output).2] := by
  simp [update_call, world.emit]

/-- What follows the deferred rebuild in `window::update`: the callback is run on the record
`m_output` as it stands, and the calls after it touch neither the surface nor a callback. -/
theorem update_finish (cfg : config) (on_update : σ → input → output → σ × action)
    (a : action) (w : world σ)
    (ha : (on_update w.user w.g_window.m_input w.g_window.m_output).2 = a) :
    (update_apply cfg a (update_consume cfg (update_call on_update w))).g_window.m_output =
      w.g_window.m_output ∧
    (update_apply cfg a (update_consume cfg (update_call on_update w))).g_window.m_sized =
      w.g_window.m_sized ∧
    (update_apply cfg a (update_consume cfg (update_call on_update w))).g_window.m_bitmap_handle =
      w.g_window.m_bitmap_handle ∧
    ∃ tail, (update_apply cfg a (update_consume cfg (update_call on_update w))).sys.log =
        w.sys.log ++ [effect.on_update w.g_window.m_input w.g_window.m_output a] ++ tail ∧
      (∀ e ∈ tail, e.is_surface_or_callback = false) := by
  obtain ⟨k₁, -, k₃⟩ := update_call_frame on_update w
  obtain ⟨c₁, -, c₃, c₄, c₅, -⟩ := update_consume_frame cfg (update_call on_update w)
  obtain ⟨a₁, a₂, a₃, tail, a₄, a₅, -⟩ :=
    update_apply_spec cfg a (update_consume cfg (update_call on_update w))
  refine ⟨?_, ?_, ?_, tail, ?_, a₅⟩
  · rw [a₁, c₄, k₁]
  · rw [a₂, c₃, k₁]
  · rw [a₃, c₅, k₁]
  · rw [a₄, c₁, k₃, ha]

/-- The calls of one frame, in order, and the state of the surface after it. -/
theorem update_frame_shape (cfg : config) (on_resize : σ → σ)
    (on_update : σ → input → output → σ × action) (w : world σ)
    (hresize : cfg.RTL_ENABLE_APP_RESIZE = true) (hscreen : cfg.RTL_ENABLE_APP_SCREEN = true) :
    (w.g_window.m_sized = true →
      ∃ i a tail, (window.update cfg on_resize on_update w).sys.log =
          w.sys.log ++ (if w.g_window.m_bitmap_handle = true then [effect.DeleteObject] else []) ++
            [effect.CreateDIBSection w.sys.client_width (-w.sys.client_height),
             effect.on_reset,
             effect.on_update i
               { screen :=
                 { width := w.sys.client_width
                   height := w.sys.client_height
                   pitch := pitch_of cfg.size_bits w.sys.client_width } } a] ++ tail ∧
        (∀ e ∈ tail, e.is_surface_or_callback = false) ∧
        (window.update cfg on_resize on_update w).g_window.m_sized = false ∧
        (window.update cfg on_resize on_update w).g_window.m_bitmap_handle = true ∧
        (window.update cfg on_resize on_update w).g_window.m_output.screen.width =
          w.sys.client_width ∧
        (window.update cfg on_resize on_update w).g_window.m_output.screen.height =
          w.sys.client_height) ∧
    (w.g_window.m_sized = false →
      ∃ i a tail, (window.update cfg on_resize on_update w).sys.log =
          w.sys.log ++ [effect.on_update i w.g_window.m_output a] ++ tail ∧
        (∀ e ∈ tail, e.is_surface_or_callback = false) ∧
        (window.update cfg on_resize on_update w).g_window.m_sized = false ∧
        (window.update cfg on_resize on_update w).g_window.m_output = w.g_window.m_output) := by
  rw [update_blocks]
  obtain ⟨c₁, -, c₃, c₄, c₅, -⟩ := update_clock_frame cfg w
  generalize update_clock cfg w = w₁ at c₁ c₃ c₄ c₅ ⊢
  constructor
  · intro hsized
    obtain ⟨s₁, s₂, s₃, s₄, -, -, -⟩ :=
      update_settle_sized cfg on_resize w₁ hresize hscreen (c₃.trans hsized)
    generalize update_settle cfg on_resize w₁ = w₂ at s₁ s₂ s₃ s₄ ⊢
    obtain ⟨f₁, f₂, f₃, tail, f₄, f₅⟩ := update_finish cfg on_update _ w₂ rfl
    refine ⟨w₂.g_window.m_input,
      (on_update w₂.user w₂.g_window.m_input w₂.g_window.m_output).2, tail, ?_, f₅, ?_, ?_, ?_, ?_⟩
    · rw [f₄, s₁, s₂, c₁, c₅]
      simp
    · rw [f₂, s₃]
    · rw [f₃, s₄]
    · rw [f₁, s₂, c₁]
    · rw [f₁, s₂, c₁]
  · intro hsized
    have hidle : update_settle cfg on_resize w₁ = w₁ :=
      update_settle_idle cfg on_resize w₁ (by simp [c₃, hsized])
    rw [hidle]
    obtain ⟨f₁, f₂, -, tail, f₄, f₅⟩ := update_finish cfg on_update _ w₁ rfl
    refine ⟨w₁.g_window.m_input,
      (on_update w₁.user w₁.g_window.m_input w₁.g_window.m_output).2, tail, ?_, f₅, ?_, ?_⟩
    · rw [f₄, c₁, c₄]
    · rw [f₂, c₃, hsized]
    · rw [f₁, c₄]

/-- Claim C6.  With resize and the screen compiled in, one call of `window::update` with
`m_sized` set deletes the old bitmap (if there is one), creates the new one for the client
area the platform reports, then runs the reset callback once, then the update callback once
with `m_output.screen.width` and `height` equal to the new client width and height, does
nothing further to the surface or the callbacks, and leaves `m_sized` false.  With `m_sized`
clear the reset callback is not run: the only callback is the update callback, which gets
`m_output` as it was, and `m_output` is unchanged afterwards. -/
theorem update_rebuilds_when_sized (cfg : config) (on_resize : σ → σ)
    (on_update : σ → input → output → σ × action) (w : world σ)
    (hresize : cfg.RTL_ENABLE_APP_RESIZE = true) (hscreen : cfg.RTL_ENABLE_APP_SCREEN = true) :
    (w.g_window.m_sized = true →
      ∃ i a tail, (window.update cfg on_resize on_update w).sys.log =
          w.sys.log ++ (if w.g_window.m_bitmap_handle = true then [effect.DeleteObject] else []) ++
            [effect.CreateDIBSection w.sys.client_width (-w.sys.client_height),
             effect.on_reset,
             effect.on_update i
               { screen :=
                 { width := w.sys.client_width
                   height := w.sys.client_height
                   pitch := pitch_of cfg.size_bits w.sys.client_width } } a] ++ tail ∧
        (∀ e ∈ tail, e.is_surface_or_callback = false) ∧
        (window.update cfg on_resize on_update w).g_window.m_sized = false ∧
        (window.update cfg on_resize on_update w).g_window.m_bitmap_handle = true ∧
        (window.update cfg on_resize on_update w).g_window.m_output.screen.width =
          w.sys.client_width ∧
        (window.update cfg on_resize on_update w).g_window.m_output.screen.height =
          w.sys.client_height) ∧
    (w.g_window.m_sized = false →
      ∃ i a tail, (window.update cfg on_resize on_update w).sys.log =
          w.sys.log ++ [effect.on_update i w.g_window.m_output a] ++ tail ∧
        (∀ e ∈ tail, e.is_surface_or_callback = false) ∧
        (window.update cfg on_resize on_update w).g_window.m_sized = false ∧
        (window.update cfg on_resize on_update w).g_window.m_output = w.g_window.m_output) := by
  obtain ⟨h₁, h₂⟩ := update_frame_shape cfg on_resize on_update w hresize hscreen
  constructor
  · intro hsized
    obtain ⟨i, a, tail, hlog, hclean, hrest⟩ := h₁ hsized
    exact ⟨i, a, tail, hlog, hclean, hrest⟩
  · intro hsized
    obtain ⟨i, a, tail, hlog, hclean, hrest⟩ := h₂ hsized
    exact ⟨i, a, tail, hlog, hclean, hrest⟩

/-- Worked instance of C6: the window created at 800 x 600 has been resized to 1024 x 768. -/
theorem update_rebuilds_when_sized_witness :
    demo_config.RTL_ENABLE_APP_RESIZE = true ∧ demo_config.RTL_ENABLE_APP_SCREEN = true ∧
    demo_resized.g_window.m_sized = true ∧ demo_resized.sys.client_width = 1024 ∧
    demo_resized.sys.client_height = 768 ∧
    ∃ i a tail, (window.update demo_config id demo_update demo_resized).sys.log =
        demo_resized.sys.log ++
          (if demo_resized.g_window.m_bitmap_handle = true then [effect.DeleteObject] else []) ++
          [effect.CreateDIBSection demo_resized.sys.client_width
             (-demo_resized.sys.client_height),
           effect.on_reset,
           effect.on_update i
             { screen :=
               { width := demo_resized.sys.client_width
                 height := demo_resized.sys.client_height
                 pitch := pitch_of demo_config.size_bits demo_resized.sys.client_width } } a] ++
          tail ∧
      (∀ e ∈ tail, e.is_surface_or_callback = false) ∧
      (window.update demo_config id demo_update demo_resized).g_window.m_sized = false ∧
      (window.update demo_config id demo_update demo_resized).g_window.m_bitmap_handle = true ∧
      (window.update demo_config id demo_update demo_resized).g_window.m_output.screen.width =
        demo_resized.sys.client_width ∧
      (window.update demo_config id demo_update demo_resized).g_window.m_output.screen.height =
        demo_resized.sys.client_height :=
  ⟨rfl, rfl, rfl, by decide, by decide,
    (update_rebuilds_when_sized demo_config id demo_update demo_resized rfl rfl).1 rfl⟩

theorem update_settle_frame (cfg : config) (on_resize : σ → σ) (w : world σ) :
    (update_settle cfg on_resize w).g_window.m_fullscreen = w.g_window.m_fullscreen ∧
    (update_settle cfg on_resize w).sys.quit = w.sys.quit ∧
    ∃ pre, (update_settle cfg on_resize w).sys.log = w.sys.log ++ pre ∧
      ∀ e ∈ pre, e.is_surface_or_callback = true := by
  by_cases h : cfg.RTL_ENABLE_APP_RESIZE = true ∧ w.g_window.m_sized = true
  · by_cases hb : cfg.RTL_ENABLE_APP_SCREEN = true ∧ w.g_window.m_bitmap_handle = true
    · refine ⟨?_, ?_, [effect.DeleteObject,
        effect.CreateDIBSection w.sys.client_width (-w.sys.client_height), effect.on_reset],
        ?_, ?_⟩ <;>
        simp [update_settle, h, hb, hb.1, window.destroy_resizable_components, window.resize,
          world.emit, world.modify, window.width, window.height, platform.client_width,
          platform.client_height, effect.is_surface_or_callback]
    · by_cases hs : cfg.RTL_ENABLE_APP_SCREEN = true
      · have hb' : w.g_window.m_bitmap_handle = false := by simpa [hs] using hb
        refine ⟨?_, ?_, [effect.CreateDIBSection w.sys.client_width (-w.sys.client_height),
          effect.on_reset], ?_, ?_⟩ <;>
          simp [update_settle, h, hb', hs, window.destroy_resizable_components, window.resize,
            world.emit, world.modify, window.width, window.height, platform.client_width,
            platform.client_height, effect.is_surface_or_callback]
      · refine ⟨?_, ?_, [effect.on_reset], ?_, ?_⟩ <;>
          simp [update_settle, h, hs, window.destroy_resizable_components, window.resize,
            world.emit, world.modify, effect.is_surface_or_callback]
  · rw [update_settle_idle cfg on_resize w h]
    exact ⟨rfl, rfl, [], by simp, by simp⟩

/-- Claim C9.  In every state, `window::update` runs the update callback once and interprets
the action `a` it returns: no repaint or termination is requested before the callback; for
`close` the only call after it is `PostQuitMessage` (termination requested, no
`InvalidateRect`); for `toggle_fullscreen` with resize compiled in, `m_fullscreen` is flipped
and neither `InvalidateRect` nor `PostQuitMessage` is called; for `none` the only call after
it is `InvalidateRect`, the quit request and `m_fullscreen` are as before. -/
theorem update_interprets_action (cfg : config) (on_resize : σ → σ)
    (on_update : σ → input → output → σ × action) (w : world σ)
    (hresize : cfg.RTL_ENABLE_APP_RESIZE = true) :
    ∃ s i o a pre tail,
      (window.update cfg on_resize on_update w).sys.log =
        w.sys.log ++ pre ++ [effect.on_update i o a] ++ tail ∧
      a = (on_update s i o).2 ∧
      (∀ e ∈ pre, e.is_surface_or_callback = true) ∧
      (a = action.close → tail = [effect.PostQuitMessage] ∧
        (window.update cfg on_resize on_update w).sys.quit = true) ∧
      (a = action.toggle_fullscreen →
        effect.InvalidateRect ∉ tail ∧ effect.PostQuitMessage ∉ tail ∧
        (window.update cfg on_resize on_update w).sys.quit = w.sys.quit ∧
        (window.update cfg on_resize on_update w).g_window.m_fullscreen =
          !w.g_window.m_fullscreen) ∧
      (a = action.none → tail = [effect.InvalidateRect] ∧
        (window.update cfg on_resize on_update w).sys.quit = w.sys.quit ∧
        (window.update cfg on_resize on_update w).g_window.m_fullscreen =
          w.g_window.m_fullscreen) := by
  rw [update_blocks]
  obtain ⟨c₁, -, -, -, -, c₆⟩ := update_clock_frame cfg w
  generalize update_clock cfg w = w₁ at c₁ c₆ ⊢
  obtain ⟨s₁, s₂, pre, s₃, s₄⟩ := update_settle_frame cfg on_resize w₁
  generalize update_settle cfg on_resize w₁ = w₂ at s₁ s₂ s₃ ⊢
  obtain ⟨k₁, k₂, k₃⟩ := update_call_frame on_update w₂
  obtain ⟨d₁, -, -, -, -, d₆⟩ := update_consume_frame cfg (update_call on_update w₂)
  obtain ⟨-, -, -, tail, a₄, -, a₆, a₇, a₈⟩ :=
    update_apply_spec cfg (on_update w₂.user w₂.g_window.m_input w₂.g_window.m_output).2
      (update_consume cfg (update_call on_update w₂))
  have hq : (update_consume cfg (update_call on_update w₂)).sys.quit = w.sys.quit := by
    rw [d₁, k₂, s₂, c₁]
  have hf : (update_consume cfg (update_call on_update w₂)).g_window.m_fullscreen =
      w.g_window.m_fullscreen := by
    rw [d₆, k₁, s₁, c₆]
  refine ⟨w₂.user, w₂.g_window.m_input, w₂.g_window.m_output, _, pre, tail, ?_, rfl, s₄,
    ?_, ?_, ?_⟩
  · rw [a₄, d₁, k₃, s₃, c₁]
  · intro ha
    exact ⟨(a₆ ha).1, (a₆ ha).2.1⟩
  · intro ha
    obtain ⟨t₁, t₂, t₃, t₄⟩ := a₈ ha hresize
    exact ⟨t₁, t₂, t₃.trans hq, by rw [t₄, hf]⟩
  · intro ha
    obtain ⟨t₁, t₂, t₃⟩ := a₇ ha
    exact ⟨t₁, t₂.trans hq, t₃.trans hf⟩

/-- Worked instance of C9: on the demo window with `VK_RETURN` just pressed the callback
returns `toggle_fullscreen`. -/
theorem update_interprets_action_witness :
    demo_config.RTL_ENABLE_APP_RESIZE = true ∧
    (demo_update_keys demo_enter_pressed.user demo_enter_pressed.g_window.m_input
      demo_enter_pressed.g_window.m_output).2 = action.toggle_fullscreen ∧
    ∃ s i o a pre tail,
      (window.update demo_config id demo_update_keys demo_enter_pressed).sys.log =
        demo_enter_pressed.sys.log ++ pre ++ [effect.on_update i o a] ++ tail ∧
      a = (demo_update_keys s i o).2 ∧
      (∀ e ∈ pre, e.is_surface_or_callback = true) ∧
      (a = action.close → tail = [effect.PostQuitMessage] ∧
        (window.update demo_config id demo_update_keys demo_enter_pressed).sys.quit = true) ∧
      (a = action.toggle_fullscreen →
        effect.InvalidateRect ∉ tail ∧ effect.PostQuitMessage ∉ tail ∧
        (window.update demo_config id demo_update_keys demo_enter_pressed).sys.quit =
          demo_enter_pressed.sys.quit ∧
        (window.update demo_config id demo_update_keys demo_enter_pressed).g_window.m_fullscreen =
          !demo_enter_pressed.g_window.m_fullscreen) ∧
      (a = action.none → tail = [effect.InvalidateRect] ∧
        (window.update demo_config id demo_update_keys demo_enter_pressed).sys.quit =
          demo_enter_pressed.sys.quit ∧
        (window.update demo_config id demo_update_keys demo_enter_pressed).g_window.m_fullscreen =
          demo_enter_pressed.g_window.m_fullscreen) :=
  ⟨rfl, by decide,
    update_interprets_action demo_config id demo_update_keys demo_enter_pressed rfl⟩

/-! ## The row stride -/

/-- Without wrap-around in `size_t` the stride expression is `3 * width` rounded up to a
multiple of four. -/
theorem pitch_of_eq (bits : Nat) (width : Int) (h0 : 0 ≤ width)
    (hfit : 3 * width + 3 < 2 ^ bits) :
    pitch_of bits width = (3 * width.toNat + 3) / 4 * 4 := by
  obtain ⟨n, rfl⟩ := Int.eq_ofNat_of_zero_le h0
  have hfit' : 3 * n + 3 < 2 ^ bits := by exact_mod_cast hfit
  have hn : ((n : Int) % (2 : Int) ^ bits).toNat = n := by
    have : ((n : Int) % (2 : Int) ^ bits) = ((n % 2 ^ bits : Nat) : Int) := by push_cast; rfl
    rw [this, Int.toNat_ofNat, Nat.mod_eq_of_lt (by omega)]
  simp only [pitch_of, to_size_t, hn, Int.toNat_ofNat]
  generalize 2 ^ bits = m at hfit'
  have ha : 3 * n % m = 3 * n := Nat.mod_eq_of_lt (by omega)
  rw [ha]
  have hc : ((3 * n + 4) % m + m - 1) % m = 3 * n + 3 := by
    by_cases hlt : 3 * n + 4 < m
    · rw [Nat.mod_eq_of_lt hlt]
      have : 3 * n + 4 + m - 1 = 3 * n + 3 + m := by omega
      rw [this, Nat.add_mod_right, Nat.mod_eq_of_lt hfit']
    · have hm : 3 * n + 4 = m := by omega
      rw [hm, Nat.mod_self, Nat.zero_add, Nat.mod_eq_of_lt (by omega)]
      omega
  rw [hc]
  exact Nat.mod_eq_of_lt (by omega)

/-- Claim C8.  With the screen compiled in and a client width `w ≥ 0` for which `3 * w + 3`
is representable in `size_t` (every `int` width when `size_t` has 64 bits), the record built
by `window::resize` has the client width and height, and its stride is the smallest multiple
of 4 that is at least `3 * w`: divisible by 4, at least `3 * w`, less than `3 * w + 4`, and
below every other such multiple.  Resizing again with the same client area, from whatever
state, yields the same width, height and stride. -/
theorem resize_pitch (cfg : config) (w : world σ)
    (hscreen : cfg.RTL_ENABLE_APP_SCREEN = true) (h0 : 0 ≤ w.sys.client_width)
    (hfit : 3 * w.sys.client_width + 3 < 2 ^ cfg.size_bits) :
    (window.resize cfg w).g_window.m_output.screen.width = w.sys.client_width ∧
    (window.resize cfg w).g_window.m_output.screen.height = w.sys.client_height ∧
    4 ∣ (window.resize cfg w).g_window.m_output.screen.pitch ∧
    3 * w.sys.client_width ≤ ((window.resize cfg w).g_window.m_output.screen.pitch : Int) ∧
    ((window.resize cfg w).g_window.m_output.screen.pitch : Int) < 3 * w.sys.client_width + 4 ∧
    (∀ m : Nat, 4 ∣ m → 3 * w.sys.client_width ≤ (m : Int) →
      (window.resize cfg w).g_window.m_output.screen.pitch ≤ m) ∧
    (∀ w' : world σ, w'.sys.client = w.sys.client →
      (window.resize cfg w').g_window.m_output = (window.resize cfg w).g_window.m_output) := by
  have hout : ∀ v : world σ, (window.resize cfg v).g_window.m_output =
      { screen := { width := v.sys.client_width, height := v.sys.client_height,
                    pitch := pitch_of cfg.size_bits v.sys.client_width } } := by
    intro v
    simp [window.resize, hscreen, world.emit, world.modify, window.width, window.height,
      platform.client_width, platform.client_height]
  have hp := pitch_of_eq cfg.size_bits w.sys.client_width h0 hfit
  rw [hout w]
  simp only [hp]
  obtain ⟨n, hn⟩ := Int.eq_ofNat_of_zero_le h0
  rw [hn]
  simp only [Int.toNat_ofNat]
  refine ⟨trivial, trivial, ⟨(3 * n + 3) / 4, by omega⟩, by omega, by omega, ?_, ?_⟩
  · rintro m ⟨c, rfl⟩ hm
    omega
  · intro w' hw'
    rw [hout w']
    simp only [platform.client_width, platform.client_height, hw'] at hn ⊢
    rw [hn]
    simp [pitch_of_eq cfg.size_bits (n : Int) (by omega) (by rw [← hn]; exact hfit)]

/-- Worked instance of C8: the 800 x 600 client area of the demo platform on a 32-bit
target; the stride is 2400. -/
theorem resize_pitch_witness :
    demo_config.RTL_ENABLE_APP_SCREEN = true ∧ 0 ≤ demo_world.sys.client_width ∧
    3 * demo_world.sys.client_width + 3 < 2 ^ demo_config.size_bits ∧
    (window.resize demo_config demo_world).g_window.m_output.screen.pitch = 2400 ∧
    (window.resize demo_config demo_world).g_window.m_output.screen.width =
      demo_world.sys.client_width ∧
    (window.resize demo_config demo_world).g_window.m_output.screen.height =
      demo_world.sys.client_height ∧
    4 ∣ (window.resize demo_config demo_world).g_window.m_output.screen.pitch ∧
    3 * demo_world.sys.client_width ≤
      ((window.resize demo_config demo_world).g_window.m_output.screen.pitch : Int) ∧
    ((window.resize demo_config demo_world).g_window.m_output.screen.pitch : Int) <
      3 * demo_world.sys.client_width + 4 ∧
    (∀ m : Nat, 4 ∣ m → 3 * demo_world.sys.client_width ≤ (m : Int) →
      (window.resize demo_config demo_world).g_window.m_output.screen.pitch ≤ m) ∧
    (∀ w' : world Nat, w'.sys.client = demo_world.sys.client →
      (window.resize demo_config w').g_window.m_output =
        (window.resize demo_config demo_world).g_window.m_output) :=
  ⟨rfl, by decide, by decide, by decide,
    resize_pitch demo_config demo_world rfl (by decide) (by decide)⟩

/-! ## Resizing -/

theorem rebuilds_append (l₁ l₂ : List effect) :
    rebuilds (l₁ ++ l₂) = rebuilds l₁ + rebuilds l₂ := by
  simp [rebuilds, List.countP_append]

theorem rebuilds_of_clean (tail : List effect)
    (h : ∀ e ∈ tail, e.is_surface_or_callback = false) : rebuilds tail = 0 := by
  unfold rebuilds
  rw [List.countP_eq_zero]
  intro e he
  have := h e he
  cases e <;> simp_all [effect.is_create, effect.is_surface_or_callback]

/-- The effect of a message on the resize flags, with resize compiled in and the
back-reference registered: no message builds the pixel buffer; `m_sized` is set by a
size-change notification that is not a minimize; `m_sizing` is set by `WM_SIZING` and cleared
by `WM_EXITSIZEMOVE`. -/
theorem wnd_proc_flags (cfg : config) (vk : Nat → keyboard.keys) (w : world σ)
    (uMsg wParam lParam : Nat) (hcfg : cfg.RTL_ENABLE_APP_RESIZE = true)
    (hthat : w.sys.userdata = true) :
    ∃ w', window.wnd_proc cfg vk w uMsg wParam lParam = some w' ∧
      w'.sys.userdata = true ∧ rebuilds w'.sys.log = rebuilds w.sys.log ∧
      w'.g_window.m_sized =
        (w.g_window.m_sized || decide (uMsg = WM_SIZE ∧ wParam ≠ SIZE_MINIMIZED)) ∧
      w'.g_window.m_sizing =
        (if uMsg = WM_SIZING then true
         else if uMsg = WM_EXITSIZEMOVE then false
         else w.g_window.m_sizing) := by
  unfold window.wnd_proc
  simp only [hcfg, hthat, true_and, if_true]
  by_cases h1 : uMsg = WM_CLOSE
  · rw [if_pos h1]
    subst h1
    simp [world.PostQuitMessage, rebuilds_append, rebuilds, effect.is_create, hthat, WM_CLOSE,
      WM_SIZE, WM_SIZING, WM_EXITSIZEMOVE]
  rw [if_neg h1]
  by_cases h2 : cfg.RTL_ENABLE_APP_KEYS = true ∧ uMsg = WM_KEYDOWN
  · rw [if_pos h2]
    obtain ⟨-, rfl⟩ := h2
    by_cases hs : w.g_window.m_input.keys.state (vk wParam).toNat = false <;>
      simp [hs, world.modify, window.set_state, window.set_pressed, hthat, WM_KEYDOWN,
        WM_SIZE, WM_SIZING, WM_EXITSIZEMOVE]
  rw [if_neg h2]
  by_cases h3 : cfg.RTL_ENABLE_APP_KEYS = true ∧ uMsg = WM_KEYUP
  · rw [if_pos h3]
    obtain ⟨-, rfl⟩ := h3
    simp [world.modify, window.set_state, hthat, WM_KEYUP, WM_SIZE, WM_SIZING,
      WM_EXITSIZEMOVE]
  rw [if_neg h3]
  by_cases h4 : uMsg = WM_SIZING
  · rw [if_pos h4]
    subst h4
    simp [world.guarded, world.modify, hthat, WM_SIZE, WM_SIZING]
  rw [if_neg h4]
  by_cases h5 : uMsg = WM_EXITSIZEMOVE
  · rw [if_pos h5]
    subst h5
    simp [world.guarded, world.modify, world.emit, rebuilds_append, rebuilds,
      effect.is_create, hthat, WM_SIZE, WM_SIZING, WM_EXITSIZEMOVE]
  rw [if_neg h5]
  by_cases h6 : uMsg = WM_SIZE
  · rw [if_pos h6]
    subst h6
    by_cases hm : wParam ≠ SIZE_MINIMIZED <;>
      simp [hm, world.guarded, world.modify, world.emit, rebuilds_append, rebuilds,
        effect.is_create, hthat, WM_SIZE, WM_SIZING, WM_EXITSIZEMOVE]
  rw [if_neg h6]
  simp only [h4, h5, h6, if_false, false_and, decide_False, Bool.or_false]
  by_cases h7 : uMsg = WM_GETMINMAXINFO
  · rw [if_pos h7]
    simp [world.emit, rebuilds_append, rebuilds, effect.is_create, hthat]
  rw [if_neg h7]
  by_cases h8 : uMsg = WM_PAINT
  · rw [if_pos h8]
    by_cases hz : w.g_window.m_sizing = true
    · rw [if_pos hz]
      simp [world.emit, rebuilds_append, rebuilds, effect.is_create, hthat]
    · rw [if_neg hz]
      by_cases hdc : w.g_window.m_device_context_handle = true ∧
          cfg.RTL_ENABLE_APP_SCREEN = true
      · rw [if_pos hdc]
        simp [world.emit, rebuilds_append, rebuilds, effect.is_create, hthat]
      · rw [if_neg hdc]
        simp [world.emit, rebuilds_append, rebuilds, effect.is_create, hthat]
  rw [if_neg h8]
  by_cases h9 : uMsg = WM_SETCURSOR
  · rw [if_pos h9]
    simp only [or_true, if_true]
    by_cases hl : LOWORD lParam = HTCLIENT
    · rw [if_pos hl]
      by_cases hcur : cfg.RTL_ENABLE_APP_CURSOR = false
      · rw [if_pos hcur]
        simp [world.emit, rebuilds_append, rebuilds, effect.is_create, hthat]
      · rw [if_neg hcur]
        simp [world.emit, rebuilds_append, rebuilds, effect.is_create, hthat]
    · rw [if_neg hl]
      simp [world.emit, rebuilds_append, rebuilds, effect.is_create, hthat]
  rw [if_neg h9]
  simp [world.emit, rebuilds_append, rebuilds, effect.is_create, hthat]

/-- The effect of a frame on the resize flags, with resize and the screen compiled in: the
pixel buffer is built once if `m_sized` is set and not at all otherwise; `m_sized` is clear
afterwards; `m_sizing` and the registration are untouched. -/
theorem update_flags (cfg : config) (on_resize : σ → σ)
    (on_update : σ → input → output → σ × action) (w : world σ)
    (hresize : cfg.RTL_ENABLE_APP_RESIZE = true) (hscreen : cfg.RTL_ENABLE_APP_SCREEN = true) :
    rebuilds (window.update cfg on_resize on_update w).sys.log =
      rebuilds w.sys.log + (if w.g_window.m_sized = true then 1 else 0) ∧
    (window.update cfg on_resize on_update w).g_window.m_sized = false := by
  obtain ⟨h₁, h₂⟩ := update_frame_shape cfg on_resize on_update w hresize hscreen
  by_cases hs : w.g_window.m_sized = true
  · obtain ⟨i, a, tail, hlog, hclean, hsized, -⟩ := h₁ hs
    refine ⟨?_, hsized⟩
    rw [hlog, rebuilds_append, rebuilds_append, rebuilds_append,
      rebuilds_of_clean tail hclean]
    by_cases hb : w.g_window.m_bitmap_handle = true <;>
      simp [hb, hs, rebuilds, effect.is_create]
  · obtain ⟨i, a, tail, hlog, hclean, hsized, -⟩ := h₂ (by simpa using hs)
    refine ⟨?_, hsized⟩
    rw [hlog, rebuilds_append, rebuilds_append, rebuilds_of_clean tail hclean]
    simp [hs, rebuilds, effect.is_create]

theorem step_flags (cfg : config) (vk : Nat → keyboard.keys) (on_reset : σ → σ)
    (on_update : σ → input → output → σ × action) (w : world σ) (e : event)
    (hresize : cfg.RTL_ENABLE_APP_RESIZE = true) (hscreen : cfg.RTL_ENABLE_APP_SCREEN = true)
    (hthat : w.sys.userdata = true) :
    ∃ w', step cfg vk on_reset on_update w e = some w' ∧ w'.sys.userdata = true ∧
      rebuilds w'.sys.log =
        rebuilds w.sys.log + (if e.is_update = true ∧ w.g_window.m_sized = true then 1 else 0) ∧
      w'.g_window.m_sized =
        (if e.is_update = true then false else (w.g_window.m_sized || e.is_size_change)) := by
  cases e with
  | message uMsg wParam lParam =>
    obtain ⟨w', h, hu, hr, hs, -⟩ := wnd_proc_flags cfg vk w uMsg wParam lParam hresize hthat
    exact ⟨w', h, hu, by simp [hr, event.is_update], by simp [hs, event.is_update,
      event.is_size_change]⟩
  | update =>
    obtain ⟨hr, hs⟩ := update_flags cfg on_reset on_update w hresize hscreen
    have hu := (update_keys cfg on_reset on_update w).1
    exact ⟨_, rfl, hu.trans hthat, by simp [hr, event.is_update], by simp [hs, event.is_update]⟩
  | environment tick client =>
    exact ⟨_, rfl, hthat, by simp [event.is_update], by simp [event.is_update,
      event.is_size_change]⟩

theorem steps_without_update (cfg : config) (vk : Nat → keyboard.keys) (on_reset : σ → σ)
    (on_update : σ → input → output → σ × action)
    (hresize : cfg.RTL_ENABLE_APP_RESIZE = true) (hscreen : cfg.RTL_ENABLE_APP_SCREEN = true)
    (evs : List event) :
    ∀ w : world σ, w.sys.userdata = true → (∀ e ∈ evs, event.is_update e = false) →
      ∃ w', steps cfg vk on_reset on_update w evs = some w' ∧ w'.sys.userdata = true ∧
        rebuilds w'.sys.log = rebuilds w.sys.log ∧
        w'.g_window.m_sized = (w.g_window.m_sized || evs.any event.is_size_change) := by
  induction evs with
  | nil =>
    intro w hthat _
    exact ⟨w, rfl, hthat, rfl, by simp⟩
  | cons e es ih =>
    intro w hthat hevs
    have he : e.is_update = false := hevs e (List.mem_cons_self _ _)
    obtain ⟨w₁, h₁, hu₁, hr₁, hs₁⟩ :=
      step_flags cfg vk on_reset on_update w e hresize hscreen hthat
    obtain ⟨w', h', hu', hr', hs'⟩ := ih w₁ hu₁ fun e' he' => hevs e' (List.mem_cons_of_mem _ he')
    refine ⟨w', by simp [steps, h₁, h'], hu', ?_, ?_⟩
    · rw [hr', hr₁]
      simp [he]
    · rw [hs', hs₁]
      simp [he, Bool.or_assoc]

theorem steps_without_size_change (cfg : config) (vk : Nat → keyboard.keys)
    (on_reset : σ → σ) (on_update : σ → input → output → σ × action)
    (hresize : cfg.RTL_ENABLE_APP_RESIZE = true) (hscreen : cfg.RTL_ENABLE_APP_SCREEN = true)
    (evs : List event) :
    ∀ w : world σ, w.sys.userdata = true → (∀ e ∈ evs, event.is_size_change e = false) →
      ∃ w', steps cfg vk on_reset on_update w evs = some w' ∧
        rebuilds w'.sys.log = rebuilds w.sys.log +
          (if w.g_window.m_sized = true ∧ evs.any event.is_update = true then 1 else 0) := by
  induction evs with
  | nil =>
    intro w _ _
    exact ⟨w, rfl, by simp⟩
  | cons e es ih =>
    intro w hthat hevs
    have he : e.is_size_change = false := hevs e (List.mem_cons_self _ _)
    obtain ⟨w₁, h₁, hu₁, hr₁, hs₁⟩ :=
      step_flags cfg vk on_reset on_update w e hresize hscreen hthat
    obtain ⟨w', h', hr'⟩ := ih w₁ hu₁ fun e' he' => hevs e' (List.mem_cons_of_mem _ he')
    refine ⟨w', by simp [steps, h₁, h'], ?_⟩
    rw [hr', hr₁, hs₁]
    by_cases hf : e.is_update = true
    · by_cases hz : w.g_window.m_sized = true <;> simp [hf, hz]
    · by_cases hz : w.g_window.m_sized = true <;> simp [hf, hz, he]

/-- Claim C7 fails as stated: a frame that runs while `m_sizing` is set rebuilds the pixel
buffer.  After `WM_SIZING`, a size-change notification and one `window::update`, the drag is
still active and the buffer has been built a second time. -/
theorem rebuild_during_drag_counterexample :
    rebuilds demo_world.sys.log = 1 ∧
    (steps demo_config demo_keys id demo_update demo_world
      [event.message WM_SIZING 0 0, event.message WM_SIZE 0 0, event.update]).map
        (fun w => (w.g_window.m_sizing, rebuilds w.sys.log)) = some (true, 2) := by
  decide

/-- Claim C7, as the code has it.  With resize and the screen compiled in: if no
`window::update` runs between the drag-start and the drag-end (the events `drag` are
messages and platform changes only), the pixel buffer is not rebuilt during the drag however
many size-change notifications arrive, and after the drag-end `m_sized` is set exactly when
it was set before or a size-change notification that is not a minimize arrived.  In the
events `later` after the drag-end, as long as no further size-change notification arrives,
the buffer is rebuilt exactly once if `m_sized` is set and a frame runs, and not at all
otherwise. -/
theorem rebuild_once_after_drag (cfg : config) (vk : Nat → keyboard.keys) (on_reset : σ → σ)
    (on_update : σ → input → output → σ × action) (w : world σ) (a b c d : Nat)
    (drag later : List event)
    (hresize : cfg.RTL_ENABLE_APP_RESIZE = true) (hscreen : cfg.RTL_ENABLE_APP_SCREEN = true)
    (hthat : w.sys.userdata = true)
    (hdrag : ∀ e ∈ drag, event.is_update e = false)
    (hlater : ∀ e ∈ later, event.is_size_change e = false) :
    ∃ w₁ w₂,
      steps cfg vk on_reset on_update w
        (event.message WM_SIZING a b :: drag ++ [event.message WM_EXITSIZEMOVE c d]) = some w₁ ∧
      rebuilds w₁.sys.log = rebuilds w.sys.log ∧
      w₁.g_window.m_sized = (w.g_window.m_sized || drag.any event.is_size_change) ∧
      steps cfg vk on_reset on_update w₁ later = some w₂ ∧
      rebuilds w₂.sys.log = rebuilds w₁.sys.log +
        (if w₁.g_window.m_sized = true ∧ later.any event.is_update = true then 1 else 0) := by
  have hall : ∀ e ∈ event.message WM_SIZING a b :: drag ++ [event.message WM_EXITSIZEMOVE c d],
      event.is_update e = false := by
    intro e he
    simp only [List.cons_append, List.mem_cons, List.mem_append, List.not_mem_nil,
      or_false] at he
    rcases he with rfl | he | rfl
    · rfl
    · exact hdrag e he
    · rfl
  obtain ⟨w₁, h₁, hu₁, hr₁, hs₁⟩ :=
    steps_without_update cfg vk on_reset on_update hresize hscreen _ w hthat hall
  obtain ⟨w₂, h₂, hr₂⟩ :=
    steps_without_size_change cfg vk on_reset on_update hresize hscreen later w₁ hu₁ hlater
  refine ⟨w₁, w₂, h₁, hr₁, ?_, h₂, hr₂⟩
  rw [hs₁]
  simp [event.is_size_change, WM_SIZING, WM_SIZE, WM_EXITSIZEMOVE]

/-- Worked instance of C7: a drag with two size-change notifications and a paint request,
followed by the drag-end, a key-down and three frames. -/
theorem rebuild_once_after_drag_witness :
    demo_config.RTL_ENABLE_APP_RESIZE = true ∧ demo_config.RTL_ENABLE_APP_SCREEN = true ∧
    demo_world.sys.userdata = true ∧
    (∀ e ∈ [event.message WM_SIZE 0 0, event.environment 16 ⟨0, 0, 1024, 768⟩,
        event.message WM_PAINT 0 0, event.message WM_SIZE 0 0], event.is_update e = false) ∧
    (∀ e ∈ [event.update, event.message WM_KEYDOWN 0x20 0, event.update, event.update],
      event.is_size_change e = false) ∧
    ∃ w₁ w₂,
      steps demo_config demo_keys id demo_update demo_world
        (event.message WM_SIZING 0 0 ::
          [event.message WM_SIZE 0 0, event.environment 16 ⟨0, 0, 1024, 768⟩,
            event.message WM_PAINT 0 0, event.message WM_SIZE 0 0] ++
          [event.message WM_EXITSIZEMOVE 0 0]) = some w₁ ∧
      rebuilds w₁.sys.log = rebuilds demo_world.sys.log ∧
      w₁.g_window.m_sized = (demo_world.g_window.m_sized ||
        [event.message WM_SIZE 0 0, event.environment 16 ⟨0, 0, 1024, 768⟩,
          event.message WM_PAINT 0 0, event.message WM_SIZE 0 0].any event.is_size_change) ∧
      steps demo_config demo_keys id demo_update w₁
        [event.update, event.message WM_KEYDOWN 0x20 0, event.update, event.update] = some w₂ ∧
      rebuilds w₂.sys.log = rebuilds w₁.sys.log +
        (if w₁.g_window.m_sized = true ∧
            [event.update, event.message WM_KEYDOWN 0x20 0, event.update,
              event.update].any event.is_update = true then 1 else 0) :=
  ⟨rfl, rfl, rfl, by decide, by decide,
    rebuild_once_after_drag demo_config demo_keys id demo_update demo_world 0 0 0 0 _ _
      rfl rfl rfl (by decide) (by decide)⟩

/-! ## The message loop -/

/-- Claim C10 fails as stated: the user callback is still invoked in the iteration that
drains the close event.  With `WM_CLOSE` first in the queue the run ends after one frame in
which the callback ran once, and the key-down queued behind `WM_CLOSE` was dispatched, not
discarded; with `WM_QUIT` first in the queue the key-down is not dispatched, and the callback
ran once all the same. -/
theorem close_skips_callback_counterexample :
    (application.run demo_config demo_keys id demo_update 2 demo_close_pending).map
        (fun w => ((seen w.sys.log).length, w.user, w.g_window.m_input.keys.state 1))
      = some (1, 1, true) ∧
    (application.run demo_config demo_keys id demo_update 2 demo_quit_pending).map
        (fun w => ((seen w.sys.log).length, w.user, w.g_window.m_input.keys.state 1))
      = some (1, 1, false) := by
  decide

theorem update_queue (cfg : config) (on_resize : σ → σ)
    (on_update : σ → input → output → σ × action) (w : world σ) :
    (window.update cfg on_resize on_update w).sys.queue = w.sys.queue := by
  rw [update_blocks]
  have h₁ : (update_clock cfg w).sys.queue = w.sys.queue := by
    rw [(update_clock_frame cfg w).1]
  have h₂ : ∀ v : world σ, (update_settle cfg on_resize v).sys.queue = v.sys.queue := by
    intro v
    unfold update_settle
    split
    · by_cases hs : cfg.RTL_ENABLE_APP_SCREEN = true <;>
        by_cases hb : v.g_window.m_bitmap_handle = true <;>
          simp [window.destroy_resizable_components, window.resize, world.emit, world.modify,
            hs, hb]
    · rfl
  have h₃ : ∀ (a : action) (v : world σ), (update_apply cfg a v).sys.queue = v.sys.queue := by
    intro a v
    cases a
    · simp [update_apply, window.invalidate, world.emit]
    · simp [update_apply, world.PostQuitMessage]
    · unfold update_apply
      simp only []
      split
      · cases hf : v.g_window.m_fullscreen <;>
          simp [window.set_fullscreen_mode, world.emit, world.modify, hf]
      · simp [window.invalidate, world.emit]
  rw [h₃, (update_consume_frame cfg _).1]
  simp only [update_call, world.emit]
  rw [h₂, h₁]

/-- Claim C10, as the code has it.  In every loop iteration of `application::run` in which
`WM_QUIT` is the first message retrieved, no message is dispatched, the messages still
pending stay in the queue, `window::update` is nevertheless called once, so that the user
callback is invoked once more, and the loop then ends.  A `WM_CLOSE` message is not such an
event: `wnd_proc` answers it with `PostQuitMessage` alone, and the drain goes on. -/
theorem quit_ends_loop_after_one_frame (cfg : config) (vk : Nat → keyboard.keys)
    (on_reset : σ → σ) (on_update : σ → input → output → σ × action) (w : world σ)
    (msg q : MSG) (s : platform) (fuel : Nat)
    (hmsg : msg.message ≠ WM_QUIT) (hpeek : PeekMessageW w.sys = (some q, s))
    (hq : q.message = WM_QUIT) :
    run_loop cfg vk on_reset on_update (fuel + 2) w msg =
      some (window.update cfg on_reset on_update { w with sys := s }) ∧
    (∃ i, seen (window.update cfg on_reset on_update { w with sys := s }).sys.log =
      seen w.sys.log ++ [i]) ∧
    (window.update cfg on_reset on_update { w with sys := s }).sys.queue = w.sys.queue.tail ∧
    (∀ wParam lParam, window.wnd_proc cfg vk w WM_CLOSE wParam lParam =
      some w.PostQuitMessage) := by
  have hs : s.log = w.sys.log ∧ s.queue = w.sys.queue.tail := by
    unfold PeekMessageW at hpeek
    split at hpeek
    · next m rest hqueue =>
      simp only [Prod.mk.injEq] at hpeek
      rw [← hpeek.2, hqueue]
      exact ⟨rfl, rfl⟩
    · next hqueue =>
      split at hpeek
      · simp only [Prod.mk.injEq] at hpeek
        rw [← hpeek.2, hqueue]
        exact ⟨rfl, rfl⟩
      · simp at hpeek
  refine ⟨?_, ?_, ?_, ?_⟩
  · simp [run_loop, drain, hpeek, hq, hmsg]
  · obtain ⟨-, -, -, i, hseen, -⟩ := update_keys cfg on_reset on_update { w with sys := s }
    exact ⟨i, by rw [hseen, hs.1]⟩
  · rw [update_queue, hs.2]
  · intro wParam lParam
    simp [window.wnd_proc]

/-- Worked instance of C10: the created demo window with `WM_QUIT` first in the queue and a
key-down behind it. -/
theorem quit_ends_loop_after_one_frame_witness :
    (⟨0, 0, 0⟩ : MSG).message ≠ WM_QUIT ∧
    PeekMessageW (window.create demo_config demo_quit_pending).sys =
      (some ⟨WM_QUIT, 0, 0⟩,
        { (window.create demo_config demo_quit_pending).sys with
          queue := [⟨WM_KEYDOWN, 0x0D, 0⟩] }) ∧
    (⟨WM_QUIT, 0, 0⟩ : MSG).message = WM_QUIT ∧
    run_loop demo_config demo_keys id demo_update (0 + 2)
        (window.create demo_config demo_quit_pending) ⟨0, 0, 0⟩ =
      some (window.update demo_config id demo_update
        { window.create demo_config demo_quit_pending with
          sys := { (window.create demo_config demo_quit_pending).sys with
            queue := [⟨WM_KEYDOWN, 0x0D, 0⟩] } }) ∧
    (∃ i, seen (window.update demo_config id demo_update
        { window.create demo_config demo_quit_pending with
          sys := { (window.create demo_config demo_quit_pending).sys with
            queue := [⟨WM_KEYDOWN, 0x0D, 0⟩] } }).sys.log =
      seen (window.create demo_config demo_quit_pending).sys.log ++ [i]) ∧
    (window.update demo_config id demo_update
        { window.create demo_config demo_quit_pending with
          sys := { (window.create demo_config demo_quit_pending).sys with
            queue := [⟨WM_KEYDOWN, 0x0D, 0⟩] } }).sys.queue =
      (window.create demo_config demo_quit_pending).sys.queue.tail ∧
    (∀ wParam lParam, window.wnd_proc demo_config demo_keys
        (window.create demo_config demo_quit_pending) WM_CLOSE wParam lParam =
      some (window.create demo_config demo_quit_pending).PostQuitMessage) :=
  ⟨by decide, rfl, rfl,
    quit_ends_loop_after_one_frame demo_config demo_keys id demo_update
      (window.create demo_config demo_quit_pending) ⟨0, 0, 0⟩ ⟨WM_QUIT, 0, 0⟩ _ 0
      (by decide) rfl rfl⟩

/-! ## Size-change notifications -/

/-- Claim C14.  With resize compiled in, in every state `WM_SIZE` is handled without fault;
a minimize leaves `m_sized` as it is; a notification that is not a minimize, received with
the back-reference registered, sets `m_sized` to true, whatever `m_sizing` is; `m_sizing` and
`m_fullscreen` are unchanged in every case. -/
theorem wm_size_sets_sized (cfg : config) (vk : Nat → keyboard.keys) (w : world σ)
    (wParam lParam : Nat) (hresize : cfg.RTL_ENABLE_APP_RESIZE = true) :
    ∃ w', window.wnd_proc cfg vk w WM_SIZE wParam lParam = some w' ∧
      (wParam = SIZE_MINIMIZED → w'.g_window.m_sized = w.g_window.m_sized) ∧
      (wParam ≠ SIZE_MINIMIZED → w.sys.userdata = true → w'.g_window.m_sized = true) ∧
      w'.g_window.m_sizing = w.g_window.m_sizing ∧
      w'.g_window.m_fullscreen = w.g_window.m_fullscreen := by
  by_cases hmin : wParam = SIZE_MINIMIZED
  · simp [window.wnd_proc, WM_CLOSE, WM_KEYDOWN, WM_KEYUP, WM_SIZING, WM_EXITSIZEMOVE, WM_SIZE,
      hresize, hmin, world.emit]
  · by_cases hthat : w.sys.userdata = true
    · simp [window.wnd_proc, WM_CLOSE, WM_KEYDOWN, WM_KEYUP, WM_SIZING, WM_EXITSIZEMOVE,
        WM_SIZE, hresize, hmin, hthat, world.emit, world.guarded, world.modify]
    · simp [window.wnd_proc, WM_CLOSE, WM_KEYDOWN, WM_KEYUP, WM_SIZING, WM_EXITSIZEMOVE,
        WM_SIZE, hresize, hmin, hthat, world.emit, world.guarded, world.modify]

/-- Worked instance of C14: a maximize notification (`SIZE_MAXIMIZED = 2`) reaches the demo
window. -/
theorem wm_size_sets_sized_witness :
    demo_config.RTL_ENABLE_APP_RESIZE = true ∧ (2 : Nat) ≠ SIZE_MINIMIZED ∧
    demo_world.sys.userdata = true ∧
    ∃ w', window.wnd_proc demo_config demo_keys demo_world WM_SIZE 2 0 = some w' ∧
      (2 = SIZE_MINIMIZED → w'.g_window.m_sized = demo_world.g_window.m_sized) ∧
      (2 ≠ SIZE_MINIMIZED → demo_world.sys.userdata = true → w'.g_window.m_sized = true) ∧
      w'.g_window.m_sizing = demo_world.g_window.m_sizing ∧
      w'.g_window.m_fullscreen = demo_world.g_window.m_fullscreen :=
  ⟨rfl, by decide, rfl, wm_size_sets_sized demo_config demo_keys demo_world 2 0 rfl⟩

/-! ## The clock sample -/

theorem to_int32_of_fits (x : Int) (h₁ : -2 ^ 31 ≤ x) (h₂ : x < 2 ^ 31) : to_int32 x = x := by
  unfold to_int32
  norm_num at h₁ h₂ ⊢
  omega

/-- Without wrap-around the clock sample is the tick count scaled by `measure / 1000`. -/
theorem clock_thirds_of_fits (measure : Int) (tick : Nat) (hm : 0 < measure)
    (hfit : (tick : Int) * measure < 2 ^ 31) :
    clock_thirds measure tick = (tick : Int) * measure / 1000 := by
  have ht : (0 : Int) ≤ tick := Int.ofNat_nonneg tick
  have hp : 0 ≤ (tick : Int) * measure := Int.mul_nonneg ht (le_of_lt hm)
  have hle : (tick : Int) ≤ (tick : Int) * measure := by nlinarith
  have h31 : (0 : Int) < 2 ^ 31 := by norm_num
  unfold clock_thirds
  rw [to_int32_of_fits (tick : Int) (by linarith) (by linarith),
    to_int32_of_fits ((tick : Int) * measure) (by linarith) hfit,
    Int.tdiv_eq_ediv hp (by norm_num)]

/-- The frame stores the clock sample of the current tick count. -/
theorem update_stores_clock (cfg : config) (on_resize : σ → σ)
    (on_update : σ → input → output → σ × action) (w : world σ)
    (hclock : cfg.RTL_ENABLE_APP_CLOCK = true) :
    (window.update cfg on_resize on_update w).g_window.m_input.clock.thirds =
      clock_thirds cfg.measure w.sys.tick := by
  rw [update_blocks]
  have h₁ : (update_clock cfg w).g_window.m_input.clock.thirds =
      clock_thirds cfg.measure w.sys.tick := by
    simp [update_clock, hclock, world.modify]
  have h₂ := (update_settle_keeps cfg on_resize (update_clock cfg w)).2.1
  generalize update_settle cfg on_resize (update_clock cfg w) = w₂ at h₂ ⊢
  have h₃ := (update_call_frame on_update w₂).1
  have h₄ : (update_consume cfg (update_call on_update w₂)).g_window.m_input.clock =
      (update_call on_update w₂).g_window.m_input.clock := by
    unfold update_consume
    split
    · simp [world.modify, window.clear_pressed, keys_count, keyboard.keys.toNat,
        List.range_succ, window.set_pressed]
    · rfl
  rw [(update_apply_keeps cfg _ _).2.1, h₄, h₃, h₂, h₁]

/-- Claim C13 fails as stated: the stored clock value goes down between two increasing tick
counts.  With `measure = 60` the 32-bit product wraps between 35791394 and 35791395
milliseconds; with `measure = 1` the conversion of the tick count to `int32_t` turns negative
between 2147483647 and 2147483648. -/
theorem clock_monotone_counterexample :
    (window.update demo_config id demo_update (demo_at_tick 35791394)).g_window.m_input.clock.thirds
      = 2147483 ∧
    (window.update demo_config id demo_update (demo_at_tick 35791395)).g_window.m_input.clock.thirds
      = -2147483 ∧
    clock_thirds 1 2147483647 = 2147483 ∧ clock_thirds 1 2147483648 = -2147483 := by
  decide

/-- Whatever the positive 32-bit constant `measure` is, some later tick count gets a smaller
clock value than tick count 0: the conversion to `int32_t` is negative from `2 ^ 31` on. -/
theorem clock_not_monotone (measure : Int) (hm : 0 < measure) (hm' : measure < 2 ^ 31) :
    clock_thirds measure 4294967295 < clock_thirds measure 0 ∨
    clock_thirds measure 4294966296 < clock_thirds measure 0 := by
  have h0 : clock_thirds measure 0 = 0 := by
    simp [clock_thirds, to_int32]
  have ha : to_int32 ((4294967295 : Nat) : Int) = -1 := by
    simp [to_int32]
  have hb : to_int32 ((4294966296 : Nat) : Int) = -1000 := by
    simp [to_int32]
  norm_num at hm'
  by_cases hbig : 1000 ≤ measure
  · left
    rw [h0]
    unfold clock_thirds
    rw [ha, to_int32_of_fits (-1 * measure) (by norm_num; omega) (by norm_num; omega),
      show -1 * measure = -measure by ring, Int.neg_tdiv,
      Int.tdiv_eq_ediv (le_of_lt hm) (by norm_num)]
    omega
  · right
    rw [h0]
    unfold clock_thirds
    rw [hb, to_int32_of_fits (-1000 * measure) (by norm_num; omega) (by norm_num; omega),
      show -1000 * measure = -(measure * 1000) by ring, Int.neg_tdiv]
    simp
    exact hm

/-- Claim C13, as the code has it.  With the clock compiled in and a positive `measure`: for
two tick counts `t1 ≤ t2` such that `t2 * measure` stays below `2 ^ 31`, the value that
`window::update` stores in `m_input.clock.thirds` for `t1` is at most the value it stores for
`t2`, and the stored value is `t * measure / 1000`. -/
theorem clock_monotone_without_wrap (cfg : config) (on_resize : σ → σ)
    (on_update : σ → input → output → σ × action) (w₁ w₂ : world σ)
    (hclock : cfg.RTL_ENABLE_APP_CLOCK = true) (hm : 0 < cfg.measure)
    (hle : w₁.sys.tick ≤ w₂.sys.tick)
    (hfit : (w₂.sys.tick : Int) * cfg.measure < 2 ^ 31) :
    (window.update cfg on_resize on_update w₁).g_window.m_input.clock.thirds ≤
      (window.update cfg on_resize on_update w₂).g_window.m_input.clock.thirds ∧
    (window.update cfg on_resize on_update w₁).g_window.m_input.clock.thirds =
      (w₁.sys.tick : Int) * cfg.measure / 1000 ∧
    (window.update cfg on_resize on_update w₂).g_window.m_input.clock.thirds =
      (w₂.sys.tick : Int) * cfg.measure / 1000 := by
  have hle' : (w₁.sys.tick : Int) * cfg.measure ≤ (w₂.sys.tick : Int) * cfg.measure :=
    Int.mul_le_mul_of_nonneg_right (by exact_mod_cast hle) (le_of_lt hm)
  rw [update_stores_clock cfg on_resize on_update w₁ hclock,
    update_stores_clock cfg on_resize on_update w₂ hclock,
    clock_thirds_of_fits cfg.measure w₁.sys.tick hm (lt_of_le_of_lt hle' hfit),
    clock_thirds_of_fits cfg.measure w₂.sys.tick hm hfit]
  exact ⟨Int.ediv_le_ediv (by norm_num) hle', rfl, rfl⟩

/-- Worked instance of C13: one second and two seconds after the tick count started, with
`measure = 60`. -/
theorem clock_monotone_without_wrap_witness :
    demo_config.RTL_ENABLE_APP_CLOCK = true ∧ 0 < demo_config.measure ∧
    (demo_at_tick 1000).sys.tick ≤ (demo_at_tick 2000).sys.tick ∧
    ((demo_at_tick 2000).sys.tick : Int) * demo_config.measure < 2 ^ 31 ∧
    (window.update demo_config id demo_update (demo_at_tick 1000)).g_window.m_input.clock.thirds ≤
      (window.update demo_config id demo_update (demo_at_tick 2000)).g_window.m_input.clock.thirds ∧
    (window.update demo_config id demo_update (demo_at_tick 1000)).g_window.m_input.clock.thirds =
      ((demo_at_tick 1000).sys.tick : Int) * demo_config.measure / 1000 ∧
    (window.update demo_config id demo_update (demo_at_tick 2000)).g_window.m_input.clock.thirds =
      ((demo_at_tick 2000).sys.tick : Int) * demo_config.measure / 1000 :=
  ⟨rfl, by decide, by decide, by decide,
    clock_monotone_without_wrap demo_config id demo_update (demo_at_tick 1000)
      (demo_at_tick 2000) rfl (by decide) (by decide) (by decide)⟩

/-! ## Fullscreen round trip -/

/-- Claim C12 fails as stated: a fullscreen window whose geometry is not the current desktop
rectangle does not get its geometry back.  The demo window went fullscreen at 1920 x 1080, the
display mode changed to 1280 x 720, and two toggles leave it at 1280 x 720. -/
theorem toggle_twice_counterexample :
    demo_fullscreen_mode_changed.g_window.m_fullscreen = true ∧
    demo_fullscreen_mode_changed.sys.placement = { rcNormalPosition := ⟨0, 0, 1920, 1080⟩ } ∧
    (toggle_fullscreen (toggle_fullscreen demo_fullscreen_mode_changed)).sys.placement =
      { rcNormalPosition := ⟨0, 0, 1280, 720⟩ } := by
  decide

/-- Claim C12, as the code has it.  Two applications of `set_fullscreen_mode( !m_fullscreen )`
restore `m_fullscreen`.  From a windowed state they restore the window geometry exactly.
From a fullscreen state they leave the window at the origin with the size of the desktop, so
the geometry is restored exactly when the window covered the desktop before. -/
theorem toggle_twice (w : world σ) :
    (toggle_fullscreen (toggle_fullscreen w)).g_window.m_fullscreen = w.g_window.m_fullscreen ∧
    (w.g_window.m_fullscreen = false →
      (toggle_fullscreen (toggle_fullscreen w)).sys.placement = w.sys.placement) ∧
    (w.g_window.m_fullscreen = true →
      (toggle_fullscreen (toggle_fullscreen w)).sys.placement = w.sys.desktop_cover ∧
      ((toggle_fullscreen (toggle_fullscreen w)).sys.placement = w.sys.placement ↔
        w.sys.placement = w.sys.desktop_cover)) := by
  cases hf : w.g_window.m_fullscreen
  · simp [toggle_fullscreen, window.set_fullscreen_mode, world.emit, world.modify, hf]
  · have hp : (toggle_fullscreen (toggle_fullscreen w)).sys.placement = w.sys.desktop_cover := by
      simp [toggle_fullscreen, window.set_fullscreen_mode, world.emit, world.modify, hf,
        platform.desktop_cover]
    refine ⟨?_, ?_, fun _ => ⟨hp, ?_⟩⟩
    · simp [toggle_fullscreen, window.set_fullscreen_mode, world.emit, world.modify, hf]
    · simp
    · rw [hp]
      exact eq_comm

/-- Worked instance of C12: the windowed demo window goes fullscreen and back. -/
theorem toggle_twice_witness :
    demo_world.g_window.m_fullscreen = false ∧
    (toggle_fullscreen (toggle_fullscreen demo_world)).g_window.m_fullscreen = false ∧
    (toggle_fullscreen (toggle_fullscreen demo_world)).sys.placement =
      { rcNormalPosition := ⟨100, 100, 916, 739⟩ } :=
  ⟨rfl, (toggle_twice demo_world).1, (toggle_twice demo_world).2.1 rfl⟩

theorem update_apply_toggle (cfg : config) (w : world σ)
    (hresize : cfg.RTL_ENABLE_APP_RESIZE = true) :
    update_apply cfg action.toggle_fullscreen w = toggle_fullscreen w := by
  simp [update_apply, hresize, toggle_fullscreen]

/-! ## The message loop after `close` -/

theorem returned_actions_append (l₁ l₂ : List effect) :
    returned_actions (l₁ ++ l₂) = returned_actions l₁ ++ returned_actions l₂ := by
  simp [returned_actions, List.filterMap_append]

theorem returned_actions_of_clean (tail : List effect)
    (h : ∀ e ∈ tail, e.is_surface_or_callback = false) : returned_actions tail = [] := by
  unfold returned_actions
  rw [List.filterMap_eq_nil_iff]
  intro e he
  have := h e he
  cases e <;> simp_all [effect.is_surface_or_callback]

theorem update_settle_returned (cfg : config) (on_resize : σ → σ) (w : world σ) :
    returned_actions (update_settle cfg on_resize w).sys.log = returned_actions w.sys.log := by
  by_cases h : cfg.RTL_ENABLE_APP_RESIZE = true ∧ w.g_window.m_sized = true
  · by_cases hs : cfg.RTL_ENABLE_APP_SCREEN = true <;>
      by_cases hb : w.g_window.m_bitmap_handle = true <;>
        simp [update_settle, h, hs, hb, window.destroy_resizable_components, window.resize,
          world.emit, world.modify, returned_actions]
  · rw [update_settle_idle cfg on_resize w h]

/-- The frame runs the callback once; if the action it returns is `close`, the quit request
is pending afterwards. -/
theorem update_returned (cfg : config) (on_resize : σ → σ)
    (on_update : σ → input → output → σ × action) (w : world σ) :
    ∃ a, returned_actions (window.update cfg on_resize on_update w).sys.log =
        returned_actions w.sys.log ++ [a] ∧
      (a = action.close → (window.update cfg on_resize on_update w).sys.quit = true) := by
  rw [update_blocks]
  obtain ⟨c₁, -⟩ := update_clock_frame cfg w
  generalize update_clock cfg w = w₁ at c₁ ⊢
  have hs := update_settle_returned cfg on_resize w₁
  generalize update_settle cfg on_resize w₁ = w₂ at hs ⊢
  obtain ⟨-, -, k₃⟩ := update_call_frame on_update w₂
  obtain ⟨d₁, -⟩ := update_consume_frame cfg (update_call on_update w₂)
  obtain ⟨-, -, -, tail, a₄, a₅, a₆, -⟩ :=
    update_apply_spec cfg (on_update w₂.user w₂.g_window.m_input w₂.g_window.m_output).2
      (update_consume cfg (update_call on_update w₂))
  refine ⟨(on_update w₂.user w₂.g_window.m_input w₂.g_window.m_output).2, ?_, fun ha =>
    (a₆ ha).2.1⟩
  rw [a₄, d₁, k₃, returned_actions_append, returned_actions_append,
    returned_actions_of_clean tail a₅, hs, c₁]
  simp [returned_actions]

/-- A drain that ends without retrieving `WM_QUIT` leaves no message and no quit request
pending. -/
theorem drain_done (cfg : config) (vk : Nat → keyboard.keys) (n : Nat) :
    ∀ (w w₁ : world σ) (msg msg₁ : MSG), drain cfg vk n w msg = some (w₁, msg₁) →
      msg₁.message ≠ WM_QUIT → w₁.sys.queue = [] ∧ w₁.sys.quit = false := by
  induction n with
  | zero =>
    intro w w₁ msg msg₁ h
    simp [drain] at h
  | succ n ih =>
    intro w w₁ msg msg₁ h hne
    unfold drain at h
    unfold PeekMessageW at h
    cases hq : w.sys.queue with
    | nil =>
      simp only [hq] at h
      by_cases hquit : w.sys.quit = true
      · simp only [hquit, if_true, Option.some.injEq, Prod.mk.injEq] at h
        exact absurd (by rw [← h.2]) hne
      · simp only [hquit, if_false, Option.some.injEq, Prod.mk.injEq, Bool.false_eq_true] at h
        rw [← h.1]
        exact ⟨hq, by simpa using hquit⟩
    | cons m rest =>
      simp only [hq] at h
      by_cases hm : m.message = WM_QUIT
      · simp only [hm, if_true, Option.some.injEq, Prod.mk.injEq] at h
        exact absurd (by rw [← h.2]; exact hm) hne
      · simp only [hm, if_false] at h
        cases hd : window.wnd_proc cfg vk { w with sys := { w.sys with queue := rest } }
            m.message m.wParam m.lParam with
        | none => simp [hd] at h
        | some w' =>
          simp only [hd, Option.bind_some] at h
          exact ih w' w₁ m msg₁ h hne

/-- Claim C11 fails as stated: the callback is invoked again after it has returned `close`.
From start to `window::destroy` the run of a callback that always returns `close` has two
invocations. -/
theorem close_then_callback_again_counterexample :
    (application.run demo_config demo_keys id demo_update_close 3 demo_start).map
        (fun w => (returned_actions w.sys.log, w.user))
      = some ([action.close, action.close], 2) := by
  decide

/-- Claim C11, as the code has it.  In a loop iteration whose drain ends without `WM_QUIT` and
whose frame has the callback return `close`: the frame leaves the quit request pending; the
next iteration does drain, its `PeekMessageW` hands out `WM_QUIT` and no message is
dispatched; `window::update` is called once more on that state, so the callback is invoked a
second time; then the loop ends. -/
theorem close_runs_one_more_frame (cfg : config) (vk : Nat → keyboard.keys)
    (on_reset : σ → σ) (on_update : σ → input → output → σ × action) (w w₁ : world σ)
    (msg msg₁ : MSG) (fuel : Nat) (hmsg : msg.message ≠ WM_QUIT)
    (hdrain : drain cfg vk (w.sys.queue.length + 2) w msg = some (w₁, msg₁))
    (hmsg₁ : msg₁.message ≠ WM_QUIT)
    (hclose : returned_actions (window.update cfg on_reset on_update w₁).sys.log =
      returned_actions w₁.sys.log ++ [action.close]) :
    (window.update cfg on_reset on_update w₁).sys.quit = true ∧
    run_loop cfg vk on_reset on_update (fuel + 3) w msg =
      some (window.update cfg on_reset on_update
        (quit_retrieved (window.update cfg on_reset on_update w₁))) ∧
    ∃ i₁ i₂, seen (window.update cfg on_reset on_update
        (quit_retrieved (window.update cfg on_reset on_update w₁))).sys.log =
      seen w₁.sys.log ++ [i₁, i₂] := by
  obtain ⟨a, ha, hquit⟩ := update_returned cfg on_reset on_update w₁
  have hac : a = action.close := by
    rw [ha] at hclose
    simpa using hclose
  have hq := hquit hac
  have hempty : (window.update cfg on_reset on_update w₁).sys.queue = [] := by
    rw [update_queue]
    exact (drain_done cfg vk _ w w₁ msg msg₁ hdrain hmsg₁).1
  refine ⟨hq, ?_, ?_⟩
  · have hpeek : PeekMessageW (window.update cfg on_reset on_update w₁).sys =
        (some ⟨WM_QUIT, 0, 0⟩,
          (quit_retrieved (window.update cfg on_reset on_update w₁)).sys) := by
      simp [PeekMessageW, hempty, hq, quit_retrieved]
    have hd : drain cfg vk ((window.update cfg on_reset on_update w₁).sys.queue.length + 2)
        (window.update cfg on_reset on_update w₁) msg₁ =
          some (quit_retrieved (window.update cfg on_reset on_update w₁), ⟨WM_QUIT, 0, 0⟩) := by
      rw [hempty]
      simp [drain, hpeek, quit_retrieved]
    have hstep : ∀ (n : Nat) (v : world σ) (m : MSG), m.message ≠ WM_QUIT →
        run_loop cfg vk on_reset on_update (n + 1) v m =
          (drain cfg vk (v.sys.queue.length + 2) v m).bind fun r =>
            run_loop cfg vk on_reset on_update n
              (window.update cfg on_reset on_update r.1) r.2 := by
      intro n v m hm
      simp [run_loop, hm]
    rw [hstep (fuel + 2) w msg hmsg, hdrain, Option.some_bind,
      hstep (fuel + 1) _ msg₁ hmsg₁, hd, Option.some_bind]
    simp [run_loop]
  · obtain ⟨-, -, -, i₁, hseen₁, -⟩ := update_keys cfg on_reset on_update w₁
    obtain ⟨-, -, -, i₂, hseen₂, -⟩ := update_keys cfg on_reset on_update
      (quit_retrieved (window.update cfg on_reset on_update w₁))
    refine ⟨i₁, i₂, ?_⟩
    rw [hseen₂]
    simp [quit_retrieved, hseen₁]

/-- Worked instance of C11: the created demo window, nothing pending, and the callback that
returns `close` at once. -/
theorem close_runs_one_more_frame_witness :
    (⟨0, 0, 0⟩ : MSG).message ≠ WM_QUIT ∧
    drain demo_config demo_keys (demo_world.sys.queue.length + 2) demo_world ⟨0, 0, 0⟩ =
      some (demo_world, ⟨0, 0, 0⟩) ∧
    returned_actions (window.update demo_config id demo_update_close demo_world).sys.log =
      returned_actions demo_world.sys.log ++ [action.close] ∧
    (window.update demo_config id demo_update_close demo_world).sys.quit = true ∧
    run_loop demo_config demo_keys id demo_update_close (0 + 3) demo_world ⟨0, 0, 0⟩ =
      some (window.update demo_config id demo_update_close
        (quit_retrieved (window.update demo_config id demo_update_close demo_world))) ∧
    ∃ i₁ i₂, seen (window.update demo_config id demo_update_close
        (quit_retrieved (window.update demo_config id demo_update_close demo_world))).sys.log =
      seen demo_world.sys.log ++ [i₁, i₂] :=
  ⟨by decide, rfl, by decide,
    close_runs_one_more_frame demo_config demo_keys id demo_update_close demo_world demo_world
      ⟨0, 0, 0⟩ ⟨0, 0, 0⟩ 0 (by decide) rfl (by decide) (by decide)⟩

end rtl
